import Mathlib

/-!
# Verification of the MarbleWS authoritative game-state engine

Shallow embedding of the server-side simulation core (`GameLogic`, the most
evolved variant, plus the level-editor's `createConnection`) and proofs of the
frozen claims about it.

Modelling conventions:
* JS numbers are modelled by `ℤ` for every quantity the gameplay logic
  computes with (coordinates, velocities, bounds, xp, levels, timestamps):
  the source's arithmetic on these is exact on the inputs the claims
  exercise.  Purely-stored quantities that are never computed with
  (rotation angles, joint stiffness/damping/length parameters, the
  unobservable force magnitudes) stay `ℚ` so fractional source constants
  (0.003, 0.1, ...) are representable.  All gameplay arithmetic in the source is
  exact on the inputs the claims exercise; where the source computes
  `Math.sqrt d < r` we model the equivalent comparison `d < r^2` (both sides
  nonnegative), noted at each site.
* The external physics library (matter-js) is a black box per the spec.  A
  `Body` carries the observable fields the engine reads or writes:
  position, velocity, angle, axis-aligned bounds, the vertex list used by the
  beam overlap test, a collision mask, and an identifying token `bid` standing
  for the JS object reference (used to model membership in the physics world).
  `Matter.Body.setPosition` translates position, bounds and vertices;
  `Matter.Body.setVelocity` sets the velocity; `Matter.Body.applyForce` only
  writes into the engine-internal force accumulator that the black-box
  `Engine.update` step consumes, so it changes nothing observable here and is
  the identity on `Body` (no claim observes accumulated forces).
* The physics world is the list of body/constraint tokens currently added.
  `Matter.World.remove` removes the given reference; tokens are created
  fresh from a counter, and removal is modelled by filtering that token out.
* JS `Map`s keyed by id are modelled as lists; `Map.set` overwrites in place
  or appends, `Map.delete`/`filter` removes, preserving insertion order like
  the JS original.
* Entity ids: level objects and players have string ids, marbles and emotes
  numeric ids (`Date.now()`-derived).  `GId` is their sum.  The cooldown map
  key `` `${obj.id}` `` is modelled by the `GId` itself (the string coercion is
  injective on each variant; the cross-variant collision "5" vs 5 is not
  exercised by any level or claim).
-/

namespace MarbleWS

/-- A 2-D point/vector with rational coordinates. -/
structure Vec where
  x : ℤ
  y : ℤ
deriving DecidableEq, Repr, Inhabited

/-- Entity identifier: level objects and players carry string ids, free bodies
(marbles, emotes) carry numeric `Date.now()`-derived ids. -/
inductive GId where
  | strId (s : String)
  | numId (n : ℤ)
deriving DecidableEq, Repr, Inhabited

/-- Observable state of a matter-js rigid body (see module docstring):
position, velocity, angle, AABB bounds, vertices, collision mask, and the
token `bid` standing for the JS object reference. -/
structure Body where
  x : ℤ
  y : ℤ
  vx : ℤ
  vy : ℤ
  angle : ℚ
  minx : ℤ
  miny : ℤ
  maxx : ℤ
  maxy : ℤ
  verts : List Vec
  mask : ℕ
  bid : ℕ
deriving DecidableEq, Repr, Inhabited

/-- `Matter.Body.setPosition`: translates the body, its bounds and its
vertices by the position delta; velocity is untouched. -/
def setPositionB (b : Body) (nx ny : ℤ) : Body :=
  let dx := nx - b.x
  let dy := ny - b.y
  { b with
    x := nx, y := ny
    minx := b.minx + dx, maxx := b.maxx + dx
    miny := b.miny + dy, maxy := b.maxy + dy
    verts := b.verts.map (fun v => ⟨v.x + dx, v.y + dy⟩) }

/-- `Matter.Body.setVelocity`. -/
def setVelocityB (b : Body) (nvx nvy : ℤ) : Body :=
  { b with vx := nvx, vy := nvy }

/-- `Matter.Body.applyForce` at the body's own position: it accumulates into
the engine-internal force accumulator (consumed by the black-box
`Engine.update` step) and produces no torque (zero offset).  Nothing the
modelled state observes changes, so it is the identity. -/
def applyForceB (b : Body) (_fx _fy : ℚ) : Body := b

/-- `Matter.Body.setAngle`: the angle field (vertex rotation is internal to
the library and not consulted by any verified property). -/
def setAngleB (b : Body) (a : ℚ) : Body := { b with angle := a }

/-- Level-object shape variant; shapes other than rectangle/circle produce no
physics body in `loadLevel`. -/
inductive Shape where
  | rectangle (width height : ℤ)
  | circle (radius : ℤ)
  | unsupported (tag : String)
deriving DecidableEq, Repr, Inhabited

/-- Static level-object descriptor, as read from a level file.  Absent JS
fields are `none` / the stated defaults (`rotation` absent ≡ 0). -/
structure LevelObject where
  id : String
  shape : Shape
  x : ℤ
  y : ℤ
  rotation : ℚ := 0
  isStatic : Bool
  isSolid : Option Bool := none
  friction : Option ℚ := none
  restitution : Option ℚ := none
  density : Option ℚ := none
  props : List String := []
  nextLevel : Option String := none
  teleporterTarget : Option String := none
deriving DecidableEq, Repr, Inhabited

/-- Live level-object entry: the descriptor spread together with its physics
body (`this.levelObjects.push({...obj, body})`). -/
structure LObj extends LevelObject where
  body : Body
deriving DecidableEq, Repr, Inhabited

/-- Joint descriptor from the level file. -/
structure Connection where
  id : String
  type : String
  bodyA : String
  bodyB : String
  pointA : Option Vec := none
  pointB : Option Vec := none
  length : Option ℚ := none
  stiffness : Option ℚ := none
  damping : Option ℚ := none
deriving DecidableEq, Repr, Inhabited

/-- The matter-js constraint record built by `createConstraint`: resolved
body tokens, resolved attachment points and parameters, and the token under
which the constraint lives in the world. -/
structure ConstraintRec where
  bidA : ℕ
  bidB : ℕ
  cpointA : Vec
  cpointB : Vec
  clength : ℚ
  cstiffness : ℚ
  cdamping : ℚ
  token : ℕ
deriving DecidableEq, Repr, Inhabited

/-- Live constraint entry: the connection spread together with the constraint
handle (`this.constraints.push({...connection, constraint})`). -/
structure ConstraintEntry extends Connection where
  crec : ConstraintRec
deriving DecidableEq, Repr, Inhabited

/-- A level: object list, connection list (absent in JS ≡ empty), optional
display-only background image. -/
structure Level where
  objects : List LevelObject
  connections : List Connection := []
  backgroundImage : Option String := none
deriving DecidableEq, Repr, Inhabited

/-- Pending movement intent (four directional booleans). -/
structure MoveInput where
  up : Bool
  down : Bool
  left : Bool
  right : Bool
deriving DecidableEq, Repr, Inhabited

/-- Live player entity. -/
structure Player where
  id : String
  username : String
  userId : String
  body : Body
  x : ℤ
  y : ℤ
  beamActive : Bool
  beamTarget : Option GId
  xp : ℤ
  level : ℤ
  targetX : ℤ
  targetY : ℤ
  input : Option MoveInput := none
deriving DecidableEq, Repr, Inhabited

/-- Free body (marble or emote). -/
structure FreeBody where
  id : GId
  body : Body
  type : String
  name : String := ""
  url : String := ""
deriving DecidableEq, Repr, Inhabited

/-- Engine-to-transport events published through the internal emitter. -/
inductive Event where
  | loadNextLevel (name : String)
deriving DecidableEq, Repr, Inhabited

/-- Warning signals surfaced via `console.warn` in `createConstraint`. -/
inductive Warning where
  | constraintBodiesNotFound (a b : String)
  | unknownConstraintType (t : String)
deriving DecidableEq, Repr, Inhabited

/-- The authoritative engine state: live collections, the physics world
(as the list of added body/constraint tokens), the per-entity teleport
cooldown map, the emitted-event log, surfaced warnings, and the fresh-token
counter for newly created bodies/constraints. -/
structure GState where
  players : List Player
  marbles : List FreeBody
  emotes : List FreeBody
  levelObjects : List LObj
  constraints : List ConstraintEntry
  currentLevel : Option Level
  world : List ℕ
  teleportCooldowns : List (GId × ℤ)
  events : List Event
  warnings : List Warning
  nextBid : ℕ
deriving DecidableEq, Repr, Inhabited

/-- `Matter.World.remove` for the body/constraint with token `bid`
(references are unique, so filtering the token out is the removal). -/
def worldRemove (w : List ℕ) (bid : ℕ) : List ℕ :=
  w.filter (fun t => t ≠ bid)

/-- `removePlayer(socketId)`: destroy the body of the found player (if any),
then delete the map entry. -/
def removePlayer (s : GState) (socketId : String) : GState :=
  let w :=
    match s.players.find? (fun p => p.id = socketId) with
    | some p => worldRemove s.world p.body.bid
    | none => s.world
  { s with world := w, players := s.players.filter (fun p => p.id ≠ socketId) }

section RemovePlayerClaims

/-- A small concrete body used by witness states. -/
def sampleBody (bid : ℕ) : Body :=
  { x := 0, y := 0, vx := 0, vy := 0, angle := 0
    minx := -1, miny := -1, maxx := 1, maxy := 1
    verts := [], mask := 0xFFFFFFFF, bid := bid }

/-- A small concrete player used by witness states. -/
def samplePlayer (pid : String) (bid : ℕ) : Player :=
  { id := pid, username := "user", userId := "acct", body := sampleBody bid
    x := 0, y := 0, beamActive := false, beamTarget := none
    xp := 0, level := 1, targetX := 0, targetY := 0 }

/-- The empty engine state (fresh `GameLogic` instance, no level loaded). -/
def emptyGS : GState :=
  { players := [], marbles := [], emotes := [], levelObjects := []
    constraints := [], currentLevel := none, world := []
    teleportCooldowns := [], events := [], warnings := [], nextBid := 0 }

/-- Witness state for C9: one connected player whose body (token 1) is in the
world. -/
def gs9 : GState :=
  { emptyGS with players := [samplePlayer "alice" 1], world := [1], nextBid := 2 }

/-- `removePlayer` on an id absent from the live player map changes
nothing. -/
theorem removePlayer_absent_eq (s : GState) (socketId : String)
    (h : ∀ p ∈ s.players, p.id ≠ socketId) :
    removePlayer s socketId = s := by
  have hfind : s.players.find? (fun p => p.id = socketId) = none :=
    List.find?_eq_none.mpr (fun x hx => by simpa using h x hx)
  have hfilter : s.players.filter (fun p => p.id ≠ socketId) = s.players :=
    List.filter_eq_self.mpr (fun a ha => by simpa using h a ha)
  unfold removePlayer
  rw [hfind, hfilter]

/-- C9: `removePlayer` is idempotent — calling it twice in a row produces the
same live-player-map state and physics-world contents as calling it once —
and calling it for an id that never joined leaves the whole state unchanged
(a no-op, not an error). -/
theorem removePlayer_idempotent_unknown_noop (s : GState) (socketId : String) :
    removePlayer (removePlayer s socketId) socketId = removePlayer s socketId ∧
    ((∀ p ∈ s.players, p.id ≠ socketId) → removePlayer s socketId = s) := by
  refine ⟨?_, removePlayer_absent_eq s socketId⟩
  refine removePlayer_absent_eq _ socketId ?_
  intro p hp
  have hp' : p ∈ s.players.filter (fun p => p.id ≠ socketId) := hp
  simpa using List.of_mem_filter hp'

/-- Witness for C9 at a concrete state: removing a never-joined id is a
no-op. -/
theorem removePlayer_idempotent_unknown_noop_witness :
    removePlayer gs9 "mallory" = gs9 :=
  (removePlayer_idempotent_unknown_noop gs9 "mallory").2 (by decide)

end RemovePlayerClaims

section LoadLevel

/-- JS `a || d` on an optional numeric field: `undefined` and `0` are both
falsy, so an explicit `0` also falls back to the default. -/
def jsOr (o : Option ℚ) (d : ℚ) : ℚ :=
  match o with
  | some v => if v = 0 then d else v
  | none => d

/-- `Matter.Bodies.rectangle(x, y, w, h, ...)`: centred at `(x,y)` with the
four corner vertices and tight bounds.  Material options (friction,
restitution, density, render) live inside the black-box engine and are not
part of the observable state. -/
def rectBody (x y w h : ℤ) (mask : ℕ) (bid : ℕ) : Body :=
  { x := x, y := y, vx := 0, vy := 0, angle := 0
    minx := x - w / 2, miny := y - h / 2, maxx := x + w / 2, maxy := y + h / 2
    verts := [⟨x - w / 2, y - h / 2⟩, ⟨x + w / 2, y - h / 2⟩,
              ⟨x + w / 2, y + h / 2⟩, ⟨x - w / 2, y + h / 2⟩]
    mask := mask, bid := bid }

/-- `Matter.Bodies.circle(x, y, r, ...)`: bounds are the tight square.  The
library's polygonal approximation of the circle outline (irrational
vertices) is internal to the engine; no verified property consults the
vertices of a body created this way, so the list is left empty. -/
def circleBody (x y r : ℤ) (mask : ℕ) (bid : ℕ) : Body :=
  { x := x, y := y, vx := 0, vy := 0, angle := 0
    minx := x - r, miny := y - r, maxx := x + r, maxy := y + r
    verts := [], mask := mask, bid := bid }

/-- Body creation for one level object: rectangle/circle get a body with the
collision mask derived from `isSolid === false`; any other shape string
creates no body (`loadLevel` then skips the object entirely). -/
def mkLevelBody (o : LevelObject) (bid : ℕ) : Option Body :=
  let mask : ℕ := if o.isSolid = some false then 0 else 0xFFFFFFFF
  match o.shape with
  | .rectangle w h => some (rectBody o.x o.y w h mask bid)
  | .circle r => some (circleBody o.x o.y r mask bid)
  | .unsupported _ => none

/-- Whether a shape produces a physics body (the Level schema only admits
rectangle and circle). -/
def Shape.buildable : Shape → Bool
  | .rectangle _ _ => true
  | .circle _ => true
  | .unsupported _ => false

/-- `loadLevel`'s post-creation rotation: `Matter.Body.setAngle` is applied
exactly when `obj.rotation` is set and nonzero. -/
def rotatedBody (o : LevelObject) (b : Body) : Body :=
  if o.rotation ≠ 0 then setAngleB b o.rotation else b

/-- The marble body of `spawnMarble(x, y)`: a radius-30 circle. -/
def marbleBody (x y : ℤ) (bid : ℕ) : Body :=
  circleBody x y 30 0xFFFFFFFF bid

/-- Accumulator for the object-building pass of `loadLevel`. -/
structure BuildAcc where
  lobjs : List LObj
  marbles : List FreeBody
  world : List ℕ
  nextBid : ℕ
deriving DecidableEq, Repr, Inhabited

/-- `spawnMarble(x, y)` during level build: add the marble body to the world
and push a marble whose id is the `Date.now()` timestamp of the load. -/
def spawnMarbleAcc (now : ℤ) (acc : BuildAcc) (x y : ℤ) : BuildAcc :=
  { acc with
    world := acc.world ++ [acc.nextBid]
    marbles := acc.marbles ++
      [{ id := .numId now, body := marbleBody x y acc.nextBid, type := "marble" }]
    nextBid := acc.nextBid + 1 }

/-- One step of `loadLevel`'s `levelData.objects.forEach`: create the body
(if the shape is supported), apply rotation post-creation, add to the world,
push the live entry, and auto-spawn a marble 50 above any
`spawnpoint`-tagged object. -/
def buildStep (now : ℤ) (acc : BuildAcc) (o : LevelObject) : BuildAcc :=
  match mkLevelBody o acc.nextBid with
  | none => acc
  | some b0 =>
    let acc1 : BuildAcc :=
      { acc with
        world := acc.world ++ [acc.nextBid]
        lobjs := acc.lobjs ++ [{ toLevelObject := o, body := rotatedBody o b0 }]
        nextBid := acc.nextBid + 1 }
    if o.props.contains "spawnpoint" then spawnMarbleAcc now acc1 o.x (o.y - 50)
    else acc1

/-- The constraint parameters `createConstraint` passes per connection type
(`none` for an unknown type): resolved length, stiffness, damping.  `rope`
and `distance` pass no damping, so the engine default 0 applies. -/
def constraintParams (c : Connection) : Option (ℚ × ℚ × ℚ) :=
  match c.type with
  | "revolute" => some (jsOr c.length 0, jsOr c.stiffness 1, jsOr c.damping 0.1)
  | "rope" => some (jsOr c.length 100, 0, 0)
  | "spring" => some (jsOr c.length 100, jsOr c.stiffness 0.1, jsOr c.damping 0.05)
  | "distance" => some (jsOr c.length 100, 1, 0)
  | _ => none

/-- `createConstraint(connection)`: resolve both endpoint bodies among the
live level objects; on failure warn and skip.  On success build the
matter-js constraint (attachment points default to the local origin), add it
to the world and push the live entry. -/
def createConstraint (s : GState) (c : Connection) : GState :=
  let bodyA? := (s.levelObjects.find? (fun o => o.id = c.bodyA)).map (fun o => o.body)
  let bodyB? := (s.levelObjects.find? (fun o => o.id = c.bodyB)).map (fun o => o.body)
  match bodyA?, bodyB? with
  | some ba, some bb =>
    match constraintParams c with
    | some (len, stiff, damp) =>
      let crec : ConstraintRec :=
        { bidA := ba.bid, bidB := bb.bid
          cpointA := c.pointA.getD ⟨0, 0⟩, cpointB := c.pointB.getD ⟨0, 0⟩
          clength := len, cstiffness := stiff, cdamping := damp
          token := s.nextBid }
      { s with
        world := s.world ++ [s.nextBid]
        constraints := s.constraints ++ [{ toConnection := c, crec := crec }]
        nextBid := s.nextBid + 1 }
    | none =>
      { s with warnings := s.warnings ++ [.unknownConstraintType c.type] }
  | _, _ =>
    { s with warnings := s.warnings ++ [.constraintBodiesNotFound c.bodyA c.bodyB] }

/-- The world after `loadLevel`'s four clearing passes.  The level-object,
marble and emote passes remove those bodies from the world.  The constraint
pass iterates `this.constraints`, whose elements are the `{...connection,
constraint}` wrappers pushed by `createConstraint`, and passes the WRAPPER
to `Matter.World.remove`; matter-js's `Composite.remove` dispatches on
`object.type`, which for the wrapper is the connection type string
(`revolute`, `rope`, ...), so the call matches no case and silently removes
nothing — the Matter constraints stay in the physics world.  The pass
therefore leaves the world unchanged. -/
def clearedWorld (s : GState) : List ℕ :=
  let w1 := s.levelObjects.foldl (fun w o => worldRemove w o.body.bid) s.world
  let w3 := s.marbles.foldl (fun w m => worldRemove w m.body.bid) w1
  s.emotes.foldl (fun w e => worldRemove w e.body.bid) w3

/-- The clearing and object-building part of `loadLevel`: collections of the
four destroyed categories are emptied, then bodies are rebuilt from the new
object list (spawning one marble per spawnpoint).  Players are not
touched. -/
def buildPhase (s : GState) (levelData : Level) (now : ℤ) : GState :=
  let acc := levelData.objects.foldl (buildStep now) ⟨[], [], clearedWorld s, s.nextBid⟩
  { s with
    levelObjects := acc.lobjs, constraints := [], marbles := acc.marbles
    emotes := [], currentLevel := some levelData
    world := acc.world, nextBid := acc.nextBid }

/-- `loadLevel(levelData)`: the four clearing passes (which remove
level-object, marble and emote bodies from the world but, per
`clearedWorld`, leave constraint tokens behind), the rebuild from the new
object list, then constraints created from the new connection list.  `now`
is the `Date.now()` timestamp of the load (marble ids). -/
def loadLevel (s : GState) (levelData : Level) (now : ℤ) : GState :=
  levelData.connections.foldl createConstraint (buildPhase s levelData now)

/-- Both endpoint ids of a connection resolve among the live level
objects. -/
def resolvesConn (lobjs : List LObj) (c : Connection) : Bool :=
  (lobjs.find? (fun o => o.id = c.bodyA)).isSome &&
  (lobjs.find? (fun o => o.id = c.bodyB)).isSome

/-- The connection type is one `createConstraint` knows. -/
def knownConnType (c : Connection) : Bool :=
  (constraintParams c).isSome

/-- The body/constraint tokens of the four categories `loadLevel` is meant
to destroy.  The constraint pass actually removes nothing from the world
(see `clearedWorld`), so only the other three are really cleared. -/
def oldCategoryTokens (s : GState) : List ℕ :=
  s.levelObjects.map (fun o => o.body.bid) ++
  s.constraints.map (fun c => c.crec.token) ++
  s.marbles.map (fun m => m.body.bid) ++
  s.emotes.map (fun e => e.body.bid)

/-- The tokens the clearing passes actually remove from the world:
level-object, marble and emote bodies.  Constraint tokens are not among
them. -/
def removedBodyTokens (s : GState) : List ℕ :=
  s.levelObjects.map (fun o => o.body.bid) ++
  s.marbles.map (fun m => m.body.bid) ++
  s.emotes.map (fun e => e.body.bid)

end LoadLevel

section LoadLevelLemmas

theorem mem_worldRemove {w : List ℕ} {b t : ℕ} :
    t ∈ worldRemove w b ↔ t ∈ w ∧ t ≠ b := by
  simp [worldRemove]

theorem mem_foldl_worldRemove {γ : Type} (tok : γ → ℕ) (t : ℕ) :
    ∀ (l : List γ) (w : List ℕ),
      t ∈ l.foldl (fun w x => worldRemove w (tok x)) w ↔
        t ∈ w ∧ ∀ x ∈ l, t ≠ tok x
  | [], w => by simp
  | x :: l, w => by
    rw [List.foldl_cons, mem_foldl_worldRemove tok t l]
    rw [mem_worldRemove]
    simp only [List.forall_mem_cons]
    tauto

theorem buildable_mkLevelBody (o : LevelObject) (bid : ℕ)
    (h : o.shape.buildable = true) : ∃ b, mkLevelBody o bid = some b := by
  cases hs : o.shape with
  | rectangle w hgt =>
    exact ⟨rectBody o.x o.y w hgt (if o.isSolid = some false then 0 else 0xFFFFFFFF) bid,
      by simp [mkLevelBody, hs]⟩
  | circle r =>
    exact ⟨circleBody o.x o.y r (if o.isSolid = some false then 0 else 0xFFFFFFFF) bid,
      by simp [mkLevelBody, hs]⟩
  | unsupported tag =>
    rw [hs] at h
    exact Bool.noConfusion h

theorem mkLevelBody_angle (o : LevelObject) (bid : ℕ) (b : Body)
    (h : mkLevelBody o bid = some b) : b.angle = 0 := by
  cases hs : o.shape with
  | rectangle w hgt =>
    simp [mkLevelBody, hs] at h
    rw [← h, rectBody]
  | circle r =>
    simp [mkLevelBody, hs] at h
    rw [← h, circleBody]
  | unsupported tag => simp [mkLevelBody, hs] at h

theorem rotatedBody_angle (o : LevelObject) (b : Body) (hb : b.angle = 0) :
    (rotatedBody o b).angle = o.rotation := by
  unfold rotatedBody
  split
  · rfl
  · next h =>
    rw [not_not] at h
    rw [hb, h]

theorem buildStep_none (now : ℤ) (acc : BuildAcc) (o : LevelObject)
    (hb : mkLevelBody o acc.nextBid = none) : buildStep now acc o = acc := by
  unfold buildStep
  rw [hb]

theorem buildStep_some (now : ℤ) (acc : BuildAcc) (o : LevelObject) (b : Body)
    (hb : mkLevelBody o acc.nextBid = some b) :
    buildStep now acc o =
      if o.props.contains "spawnpoint" then
        { lobjs := acc.lobjs ++ [{ toLevelObject := o, body := rotatedBody o b }]
          marbles := acc.marbles ++
            [{ id := .numId now, body := marbleBody o.x (o.y - 50) (acc.nextBid + 1),
               type := "marble" }]
          world := acc.world ++ [acc.nextBid, acc.nextBid + 1]
          nextBid := acc.nextBid + 2 }
      else
        { lobjs := acc.lobjs ++ [{ toLevelObject := o, body := rotatedBody o b }]
          marbles := acc.marbles
          world := acc.world ++ [acc.nextBid]
          nextBid := acc.nextBid + 1 } := by
  unfold buildStep
  rw [hb]
  split
  · next heq => exact Option.noConfusion heq
  · next b0 heq =>
    obtain rfl : b = b0 := Option.some.inj heq
    split <;> simp [spawnMarbleAcc, List.append_assoc]

theorem buildStep_tokens (now : ℤ) (acc : BuildAcc) (o : LevelObject) :
    acc.nextBid ≤ (buildStep now acc o).nextBid ∧
    (∀ t ∈ acc.world, t ∈ (buildStep now acc o).world) ∧
    (∀ t ∈ (buildStep now acc o).world, t ∈ acc.world ∨ acc.nextBid ≤ t) := by
  cases hb : mkLevelBody o acc.nextBid with
  | none =>
    rw [buildStep_none now acc o hb]
    exact ⟨le_refl _, fun t ht => ht, fun t ht => Or.inl ht⟩
  | some b =>
    rw [buildStep_some now acc o b hb]
    split <;>
      refine ⟨by simp, fun t ht => by simp [ht], fun t ht => ?_⟩ <;>
      · rcases List.mem_append.mp ht with h | h
        · exact Or.inl h
        · right
          simp at h
          omega

theorem build_fold_tokens (now : ℤ) :
    ∀ (objs : List LevelObject) (acc : BuildAcc),
      acc.nextBid ≤ (objs.foldl (buildStep now) acc).nextBid ∧
      (∀ t ∈ acc.world, t ∈ (objs.foldl (buildStep now) acc).world) ∧
      (∀ t ∈ (objs.foldl (buildStep now) acc).world,
        t ∈ acc.world ∨ acc.nextBid ≤ t)
  | [], acc => ⟨le_refl _, fun _ ht => ht, fun _ ht => Or.inl ht⟩
  | o :: objs, acc => by
    rw [List.foldl_cons]
    obtain ⟨s1, s2, s3⟩ := buildStep_tokens now acc o
    obtain ⟨i1, i2, i3⟩ := build_fold_tokens now objs (buildStep now acc o)
    refine ⟨le_trans s1 i1, fun t ht => i2 t (s2 t ht), fun t ht => ?_⟩
    rcases i3 t ht with h | h
    · rcases s3 t h with h' | h'
      · exact Or.inl h'
      · exact Or.inr h'
    · exact Or.inr (le_trans s1 h)

theorem build_fold_content (now : ℤ) :
    ∀ (objs : List LevelObject) (acc : BuildAcc),
      (∀ o ∈ objs, o.shape.buildable = true) →
      ((objs.foldl (buildStep now) acc).lobjs.map (fun e => e.id)
          = acc.lobjs.map (fun e => e.id) ++ objs.map (fun o => o.id)) ∧
      ((objs.foldl (buildStep now) acc).lobjs.map (fun e => e.body.angle)
          = acc.lobjs.map (fun e => e.body.angle) ++ objs.map (fun o => o.rotation)) ∧
      ((objs.foldl (buildStep now) acc).marbles.length
          = acc.marbles.length
              + (objs.filter (fun o => o.props.contains "spawnpoint")).length)
  | [], acc, _ => by simp
  | o :: objs, acc, h => by
    have ho : o.shape.buildable = true := h o (List.mem_cons_self o objs)
    have hrest : ∀ x ∈ objs, x.shape.buildable = true :=
      fun x hx => h x (List.mem_cons_of_mem o hx)
    obtain ⟨b, hb⟩ := buildable_mkLevelBody o acc.nextBid ho
    obtain ⟨ih1, ih2, ih3⟩ :=
      build_fold_content now objs (buildStep now acc o) hrest
    rw [List.foldl_cons] at *
    have hang : (rotatedBody o b).angle = o.rotation :=
      rotatedBody_angle o b (mkLevelBody_angle o acc.nextBid b hb)
    refine ⟨?_, ?_, ?_⟩
    · rw [ih1, buildStep_some now acc o b hb]
      split <;> simp
    · rw [ih2, buildStep_some now acc o b hb]
      split <;> simp [hang]
    · have hstep := buildStep_some now acc o b hb
      by_cases hsp : o.props.contains "spawnpoint" = true
      · have hsp' : "spawnpoint" ∈ o.props := by simpa using hsp
        rw [if_pos hsp] at hstep
        rw [ih3, hstep]
        simp [List.filter_cons, hsp']
        omega
      · have hsp' : ¬"spawnpoint" ∈ o.props := by simpa using hsp
        rw [if_neg hsp] at hstep
        rw [ih3, hstep]
        simp [List.filter_cons, hsp']

end LoadLevelLemmas

section ConstraintLemmas

theorem createConstraint_unresolved (s : GState) (c : Connection)
    (h : resolvesConn s.levelObjects c = false) :
    createConstraint s c =
      { s with warnings :=
          s.warnings ++ [.constraintBodiesNotFound c.bodyA c.bodyB] } := by
  unfold createConstraint
  unfold resolvesConn at h
  rcases hA : s.levelObjects.find? (fun o => o.id = c.bodyA) with _ | oa <;>
    rcases hB : s.levelObjects.find? (fun o => o.id = c.bodyB) with _ | ob <;>
    rw [hA, hB] at h ⊢ <;> simp at h ⊢

theorem createConstraint_unknownType (s : GState) (c : Connection)
    (h : resolvesConn s.levelObjects c = true) (hk : knownConnType c = false) :
    createConstraint s c =
      { s with warnings := s.warnings ++ [.unknownConstraintType c.type] } := by
  unfold createConstraint
  unfold resolvesConn at h
  unfold knownConnType at hk
  rcases hA : s.levelObjects.find? (fun o => o.id = c.bodyA) with _ | oa <;>
    rcases hB : s.levelObjects.find? (fun o => o.id = c.bodyB) with _ | ob <;>
    rw [hA, hB] at h ⊢ <;> simp at h ⊢
  rcases hP : constraintParams c with _ | ⟨len, stiff, damp⟩
  · rfl
  · rw [hP] at hk
    simp at hk

theorem createConstraint_success (s : GState) (c : Connection)
    (h : resolvesConn s.levelObjects c = true) (hk : knownConnType c = true) :
    ∃ ce : ConstraintEntry, ce.toConnection = c ∧
      createConstraint s c =
        { s with
          world := s.world ++ [s.nextBid]
          constraints := s.constraints ++ [ce]
          nextBid := s.nextBid + 1 } := by
  unfold createConstraint
  unfold resolvesConn at h
  unfold knownConnType at hk
  rcases hA : s.levelObjects.find? (fun o => o.id = c.bodyA) with _ | oa <;>
    rcases hB : s.levelObjects.find? (fun o => o.id = c.bodyB) with _ | ob <;>
    rw [hA, hB] at h ⊢ <;> simp at h ⊢
  rcases hP : constraintParams c with _ | ⟨len, stiff, damp⟩
  · rw [hP] at hk
    simp at hk
  · exact ⟨_, rfl, rfl⟩

/-- Frame of a single `createConstraint` call: every field other than world,
constraints, warnings and nextBid is untouched; world and nextBid only
grow. -/
theorem createConstraint_frame (s : GState) (c : Connection) :
    (createConstraint s c).players = s.players ∧
    (createConstraint s c).levelObjects = s.levelObjects ∧
    (createConstraint s c).marbles = s.marbles ∧
    (createConstraint s c).emotes = s.emotes ∧
    (createConstraint s c).currentLevel = s.currentLevel ∧
    (createConstraint s c).events = s.events ∧
    (createConstraint s c).teleportCooldowns = s.teleportCooldowns ∧
    s.nextBid ≤ (createConstraint s c).nextBid ∧
    (∀ t ∈ s.world, t ∈ (createConstraint s c).world) ∧
    (∀ t ∈ (createConstraint s c).world, t ∈ s.world ∨ s.nextBid ≤ t) := by
  by_cases h : resolvesConn s.levelObjects c = true
  · by_cases hk : knownConnType c = true
    · obtain ⟨ce, -, hce⟩ := createConstraint_success s c h hk
      rw [hce]
      refine ⟨rfl, rfl, rfl, rfl, rfl, rfl, rfl, by simp, fun t ht => by simp [ht],
        fun t ht => ?_⟩
      rcases List.mem_append.mp ht with h' | h'
      · exact Or.inl h'
      · simp at h'
        omega
    · rw [createConstraint_unknownType s c h (by simpa using hk)]
      exact ⟨rfl, rfl, rfl, rfl, rfl, rfl, rfl, le_refl _, fun _ ht => ht,
        fun _ ht => Or.inl ht⟩
  · rw [createConstraint_unresolved s c (by simpa using h)]
    exact ⟨rfl, rfl, rfl, rfl, rfl, rfl, rfl, le_refl _, fun _ ht => ht,
      fun _ ht => Or.inl ht⟩

/-- The warning `createConstraint` pushes for a connection, if any. -/
def connWarning (lobjs : List LObj) (c : Connection) : Option Warning :=
  if resolvesConn lobjs c = false then
    some (.constraintBodiesNotFound c.bodyA c.bodyB)
  else if knownConnType c = false then some (.unknownConstraintType c.type)
  else none

/-- Folding `createConstraint` over a connection list: untouched fields,
grown world, and the characterizations of the final constraint list and
warning log. -/
theorem connFold_spec :
    ∀ (conns : List Connection) (s : GState),
      (conns.foldl createConstraint s).players = s.players ∧
      (conns.foldl createConstraint s).levelObjects = s.levelObjects ∧
      (conns.foldl createConstraint s).marbles = s.marbles ∧
      (conns.foldl createConstraint s).emotes = s.emotes ∧
      (conns.foldl createConstraint s).currentLevel = s.currentLevel ∧
      (conns.foldl createConstraint s).events = s.events ∧
      (conns.foldl createConstraint s).teleportCooldowns = s.teleportCooldowns ∧
      s.nextBid ≤ (conns.foldl createConstraint s).nextBid ∧
      (∀ t ∈ s.world, t ∈ (conns.foldl createConstraint s).world) ∧
      (∀ t ∈ (conns.foldl createConstraint s).world,
        t ∈ s.world ∨ s.nextBid ≤ t) ∧
      ((conns.foldl createConstraint s).constraints.map
          (fun ce => ce.toConnection)
        = s.constraints.map (fun ce => ce.toConnection) ++
            conns.filter (fun k =>
              resolvesConn s.levelObjects k && knownConnType k)) ∧
      (conns.foldl createConstraint s).warnings
        = s.warnings ++ conns.filterMap (connWarning s.levelObjects)
  | [], s => by
    refine ⟨rfl, rfl, rfl, rfl, rfl, rfl, rfl, le_refl _, fun _ ht => ht,
      fun _ ht => Or.inl ht, by simp, by simp⟩
  | c :: conns, s => by
    obtain ⟨f1, f2, f3, f4, f5, f6, f7, f8, f9, f10⟩ := createConstraint_frame s c
    obtain ⟨i1, i2, i3, i4, i5, i6, i7, i8, i9, i10, i11, i12⟩ :=
      connFold_spec conns (createConstraint s c)
    rw [List.foldl_cons]
    refine ⟨i1.trans f1, i2.trans f2, i3.trans f3, i4.trans f4, i5.trans f5,
      i6.trans f6, i7.trans f7, le_trans f8 i8,
      fun t ht => i9 t (f9 t ht), fun t ht => ?_, ?_, ?_⟩
    · rcases i10 t ht with h' | h'
      · exact f10 t h'
      · exact Or.inr (le_trans f8 h')
    · rw [i11, f2, List.filter_cons]
      by_cases h : resolvesConn s.levelObjects c = true
      · by_cases hk : knownConnType c = true
        · obtain ⟨ce, hcec, hce⟩ := createConstraint_success s c h hk
          rw [hce]
          simp [h, hk, hcec]
        · rw [createConstraint_unknownType s c h (by simpa using hk)]
          simp [h, by simpa using hk]
      · rw [createConstraint_unresolved s c (by simpa using h)]
        simp [by simpa using h]
    · rw [i12, f2, List.filterMap_cons]
      by_cases h : resolvesConn s.levelObjects c = true
      · by_cases hk : knownConnType c = true
        · obtain ⟨ce, -, hce⟩ := createConstraint_success s c h hk
          rw [hce]
          simp [connWarning, h, hk]
        · rw [createConstraint_unknownType s c h (by simpa using hk)]
          simp [connWarning, h, by simpa using hk]
      · rw [createConstraint_unresolved s c (by simpa using h)]
        simp [connWarning, by simpa using h]

end ConstraintLemmas

section LoadLevelClaims

theorem mem_clearedWorld (s : GState) (t : ℕ) :
    t ∈ clearedWorld s ↔ t ∈ s.world ∧ t ∉ removedBodyTokens s := by
  unfold clearedWorld removedBodyTokens
  rw [mem_foldl_worldRemove, mem_foldl_worldRemove, mem_foldl_worldRemove]
  simp only [List.mem_append, List.mem_map]
  constructor
  · rintro ⟨⟨⟨hw, h1⟩, h3⟩, h4⟩
    refine ⟨hw, ?_⟩
    rintro ((⟨x, hx, hex⟩ | ⟨x, hx, hex⟩) | ⟨x, hx, hex⟩)
    · exact h1 x hx hex.symm
    · exact h3 x hx hex.symm
    · exact h4 x hx hex.symm
  · rintro ⟨hw, hno⟩
    refine ⟨⟨⟨hw, ?_⟩, ?_⟩, ?_⟩ <;> intro x hx hex
    · exact hno (Or.inl (Or.inl ⟨x, hx, hex.symm⟩))
    · exact hno (Or.inl (Or.inr ⟨x, hx, hex.symm⟩))
    · exact hno (Or.inr ⟨x, hx, hex.symm⟩)

theorem mem_oldCategoryTokens_of_removed (s : GState) (t : ℕ)
    (h : t ∈ removedBodyTokens s) : t ∈ oldCategoryTokens s := by
  unfold removedBodyTokens at h
  unfold oldCategoryTokens
  simp only [List.mem_append] at h ⊢
  tauto

/-- The object-building phase in terms of the build fold. -/
theorem buildPhase_eq (s : GState) (lvl : Level) (now : ℤ) :
    buildPhase s lvl now =
      { s with
        levelObjects :=
          (lvl.objects.foldl (buildStep now) ⟨[], [], clearedWorld s, s.nextBid⟩).lobjs
        constraints := []
        marbles :=
          (lvl.objects.foldl (buildStep now) ⟨[], [], clearedWorld s, s.nextBid⟩).marbles
        emotes := [], currentLevel := some lvl
        world :=
          (lvl.objects.foldl (buildStep now) ⟨[], [], clearedWorld s, s.nextBid⟩).world
        nextBid :=
          (lvl.objects.foldl (buildStep now) ⟨[], [], clearedWorld s, s.nextBid⟩).nextBid } :=
  rfl

/-- An empty level: no objects, no connections. -/
def lvlEmpty : Level := { objects := [], connections := [] }

/-- Failing state for C3: a player (token 7), a level object (token 4), a
marble (token 2), an emote (token 3) and one live constraint (token 5), all
of whose tokens are in the world. -/
def gsC : GState :=
  { emptyGS with
    players := [samplePlayer "alice" 7]
    levelObjects :=
      [{ id := "plat", shape := .rectangle 200 40, x := 300, y := 500
         isStatic := true, props := [], body := sampleBody 4 }]
    marbles := [{ id := .numId 1, body := marbleBody 50 50 2, type := "marble" }]
    emotes := [{ id := .numId 4, body := circleBody 60 60 20 0xFFFFFFFF 3
                 type := "emote", name := "Kappa", url := "u" }]
    constraints :=
      [{ id := "c0", type := "revolute", bodyA := "plat", bodyB := "plat"
         crec := { bidA := 4, bidB := 4, cpointA := ⟨0, 0⟩, cpointB := ⟨0, 0⟩
                   clength := 0, cstiffness := 1, cdamping := 0, token := 5 } }]
    world := [7, 4, 2, 3, 5]
    nextBid := 8 }

/-- C3 (code bug): `loadLevel`'s constraint-clearing pass empties the live
constraint list but does not remove the Matter constraint from the physics
world — `Matter.World.remove` receives the `{...connection, constraint}`
wrapper, whose `type` is the connection type string, so `Composite.remove`
matches no case and is a silent no-op.  At the failing input `gsC` (one live
constraint, token 5) loading an empty level removes the level-object body
(4), the marble body (2) and the emote body (3) from the world and empties
the constraint collection, yet token 5 — a token of the categories the
claim says are destroyed — is still in the world afterwards, contradicting
the claimed full world reset. -/
theorem constraint_leak_on_loadLevel :
    (5 : ℕ) ∈ oldCategoryTokens gsC ∧
    (loadLevel gsC lvlEmpty 0).constraints = [] ∧
    (loadLevel gsC lvlEmpty 0).world = [7, 5] ∧
    (5 : ℕ) ∈ (loadLevel gsC lvlEmpty 0).world := by decide

/-- Witness level for the `loadLevel` claims: one static spawnpoint circle
and one rectangle, joined by one valid and one dangling connection. -/
def lvlW : Level :=
  { objects :=
      [{ id := "sp", shape := .circle 20, x := 100, y := 100, isStatic := true
         props := ["spawnpoint"] },
       { id := "plat", shape := .rectangle 200 40, x := 300, y := 500
         rotation := 1/2, isStatic := true, props := [] }]
    connections :=
      [{ id := "c0", type := "revolute", bodyA := "sp", bodyB := "plat" },
       { id := "c1", type := "spring", bodyA := "sp", bodyB := "ghost" }] }

/-- Witness state for the `loadLevel` claims: one player (token 7), one stale
marble (token 2) and one stale emote (token 3) live in the world. -/
def gsW : GState :=
  { emptyGS with
    players := [samplePlayer "alice" 7]
    marbles := [{ id := .numId 1, body := marbleBody 50 50 2, type := "marble" }]
    emotes := [{ id := .numId 4, body := circleBody 60 60 20 0xFFFFFFFF 3
                 type := "emote", name := "Kappa", url := "u" }]
    world := [7, 2, 3]
    nextBid := 8 }

/-- C5: `loadLevel` never destroys or recreates players: the live player map
(hence every player's xp, level and beam state) is unchanged, and each
player's physics body stays in the same world (its token is neither in a
destroyed category nor forged anew). -/
theorem loadLevel_preserves_players (s : GState) (lvl : Level) (now : ℤ)
    (hin : ∀ p ∈ s.players, p.body.bid ∈ s.world)
    (hdisj : ∀ p ∈ s.players, p.body.bid ∉ oldCategoryTokens s) :
    (loadLevel s lvl now).players = s.players ∧
    ∀ p ∈ s.players, p.body.bid ∈ (loadLevel s lvl now).world := by
  obtain ⟨i1, i2, i3, i4, i5, i6, i7, i8, i9, i10, i11, i12⟩ :=
    connFold_spec lvl.connections (buildPhase s lvl now)
  obtain ⟨t1, t2, t3⟩ :=
    build_fold_tokens now lvl.objects ⟨[], [], clearedWorld s, s.nextBid⟩
  constructor
  · rw [show (loadLevel s lvl now).players = (buildPhase s lvl now).players from i1,
      buildPhase_eq]
  · intro p hp
    have h0 : p.body.bid ∈ clearedWorld s :=
      (mem_clearedWorld s p.body.bid).mpr
        ⟨hin p hp,
         fun hmem => hdisj p hp (mem_oldCategoryTokens_of_removed s p.body.bid hmem)⟩
    refine i9 p.body.bid ?_
    rw [buildPhase_eq]
    exact t2 p.body.bid h0

/-- Witness for C5 at a concrete state and level: the player token 7
survives the reload. -/
theorem loadLevel_preserves_players_witness :
    (loadLevel gsW lvlW 5).players = gsW.players ∧
    ∀ p ∈ gsW.players, p.body.bid ∈ (loadLevel gsW lvlW 5).world :=
  loadLevel_preserves_players gsW lvlW 5 (by decide) (by decide)

/-- C6: a connection whose `bodyA`/`bodyB` id does not resolve among the
loaded level objects is skipped with a warning signal: its warning is
surfaced, no constraint is created for it, and the remaining connections are
still processed (the final constraint list is exactly the resolvable,
known-type connections in order) — `loadLevel` is total, so loading never
crashes. -/
theorem loadLevel_skips_missing_connection (s : GState) (lvl : Level)
    (now : ℤ) (c : Connection) (hc : c ∈ lvl.connections)
    (hbad : resolvesConn (loadLevel s lvl now).levelObjects c = false) :
    Warning.constraintBodiesNotFound c.bodyA c.bodyB
        ∈ (loadLevel s lvl now).warnings ∧
    (∀ ce ∈ (loadLevel s lvl now).constraints, ce.toConnection ≠ c) ∧
    (loadLevel s lvl now).constraints.map (fun ce => ce.toConnection)
      = lvl.connections.filter (fun k =>
          resolvesConn (loadLevel s lvl now).levelObjects k && knownConnType k) := by
  obtain ⟨i1, i2, i3, i4, i5, i6, i7, i8, i9, i10, i11, i12⟩ :=
    connFold_spec lvl.connections (buildPhase s lvl now)
  have hlo : (loadLevel s lvl now).levelObjects = (buildPhase s lvl now).levelObjects := i2
  rw [hlo] at hbad
  have hchar : (loadLevel s lvl now).constraints.map (fun ce => ce.toConnection)
      = lvl.connections.filter (fun k =>
          resolvesConn (buildPhase s lvl now).levelObjects k && knownConnType k) := by
    have hb0 : (buildPhase s lvl now).constraints = [] := by rw [buildPhase_eq]
    rw [show (loadLevel s lvl now).constraints.map (fun ce => ce.toConnection)
          = (buildPhase s lvl now).constraints.map (fun ce => ce.toConnection) ++
              lvl.connections.filter (fun k =>
                resolvesConn (buildPhase s lvl now).levelObjects k && knownConnType k)
        from i11, hb0]
    simp
  refine ⟨?_, ?_, ?_⟩
  · rw [show (loadLevel s lvl now).warnings
        = (buildPhase s lvl now).warnings ++
            lvl.connections.filterMap (connWarning (buildPhase s lvl now).levelObjects)
      from i12]
    refine List.mem_append_right _ ?_
    refine List.mem_filterMap.mpr ⟨c, hc, ?_⟩
    rw [connWarning, if_pos hbad]
  · intro ce hce hcec
    have hmem : c ∈ (loadLevel s lvl now).constraints.map (fun ce => ce.toConnection) :=
      hcec ▸ List.mem_map_of_mem _ hce
    rw [hchar] at hmem
    have := List.of_mem_filter hmem
    rw [hbad] at this
    simp at this
  · rw [hlo]
    exact hchar

/-- Witness for C6 at a concrete state and level: connection `c1` references
the missing object id `ghost`, is skipped with a warning, and the valid
connection `c0` is still created. -/
theorem loadLevel_skips_missing_connection_witness :
    Warning.constraintBodiesNotFound "sp" "ghost"
        ∈ (loadLevel gsW lvlW 5).warnings ∧
    (∀ ce ∈ (loadLevel gsW lvlW 5).constraints,
      ce.toConnection ≠ { id := "c1", type := "spring", bodyA := "sp", bodyB := "ghost" }) ∧
    (loadLevel gsW lvlW 5).constraints.map (fun ce => ce.toConnection)
      = lvlW.connections.filter (fun k =>
          resolvesConn (loadLevel gsW lvlW 5).levelObjects k && knownConnType k) :=
  loadLevel_skips_missing_connection gsW lvlW 5
    { id := "c1", type := "spring", bodyA := "sp", bodyB := "ghost" }
    (by decide) (by decide)

end LoadLevelClaims

section TickPipeline

/-- A reference into the live collections, standing for the JS object
reference captured when a candidate list is built: later mutations through
the reference are seen by every holder.  Collections' lengths are stable
during the passes that use refs, so an index is a faithful stand-in. -/
inductive Ref where
  | rMarble (i : ℕ)
  | rEmote (i : ℕ)
  | rLevelObj (i : ℕ)
  | rPlayer (i : ℕ)
deriving DecidableEq, Repr, Inhabited

/-- Dereference: the entity's id (as used for cooldown keys and self-skip
checks) and its current body. -/
def getEnt (s : GState) (r : Ref) : Option (GId × Body) :=
  match r with
  | .rMarble i => (s.marbles[i]?).map (fun m => (m.id, m.body))
  | .rEmote i => (s.emotes[i]?).map (fun e => (e.id, e.body))
  | .rLevelObj i => (s.levelObjects[i]?).map (fun o => (GId.strId o.id, o.body))
  | .rPlayer i => (s.players[i]?).map (fun p => (GId.strId p.id, p.body))

/-- Mutate the body behind a reference (e.g. `Matter.Body.setPosition` on a
captured object). -/
def setBodyAt (s : GState) (r : Ref) (f : Body → Body) : GState :=
  match r with
  | .rMarble i =>
    { s with marbles := List.modify (fun m => { m with body := f m.body }) i s.marbles }
  | .rEmote i =>
    { s with emotes := List.modify (fun e => { e with body := f e.body }) i s.emotes }
  | .rLevelObj i =>
    { s with levelObjects :=
        List.modify (fun o => { o with body := f o.body }) i s.levelObjects }
  | .rPlayer i =>
    { s with players := List.modify (fun p => { p with body := f p.body }) i s.players }

/-- `this.teleportCooldowns.get(key)` on the JS `Map`. -/
def lookupCd (l : List (GId × ℤ)) (k : GId) : Option ℤ :=
  (l.find? (fun p => p.1 = k)).map (fun p => p.2)

/-- `this.teleportCooldowns.set(key, v)`: overwrite in place, or append a new
entry (JS `Map` insertion order). -/
def setCd (l : List (GId × ℤ)) (k : GId) (v : ℤ) : List (GId × ℤ) :=
  if l.any (fun p => p.1 = k) then
    l.map (fun p => if p.1 = k then (k, v) else p)
  else l ++ [(k, v)]

/-- The opportunistic prune run after each successful teleport: delete every
cooldown entry older than 2000 ms. -/
def pruneCds (now : ℤ) (l : List (GId × ℤ)) : List (GId × ℤ) :=
  l.filter (fun p => ¬(now - p.2 > 2000))

/-- Indices of the teleporter list captured at the top of
`handleTeleporters`: level objects tagged `teleporter` with a
`teleporterTarget`. -/
def teleporterIdxs (s : GState) : List ℕ :=
  (List.range s.levelObjects.length).filter (fun i =>
    match s.levelObjects[i]? with
    | some o => o.props.contains "teleporter" && o.teleporterTarget.isSome
    | none => false)

/-- References of the movable-object list captured at the top of
`handleTeleporters`: marbles, emotes, non-static level objects (all live
entries have bodies, so the `obj.body` truthiness check always passes), then
every player. -/
def movableRefs (s : GState) : List Ref :=
  (List.range s.marbles.length).map .rMarble ++
  (List.range s.emotes.length).map .rEmote ++
  ((List.range s.levelObjects.length).filter (fun i =>
    match s.levelObjects[i]? with
    | some o => !o.isStatic
    | none => false)).map .rLevelObj ++
  (List.range s.players.length).map .rPlayer

/-- One inner iteration of `handleTeleporters` (teleporter index `ti`,
movable reference `r`): skip the teleporter itself; skip entities on an
active cooldown (a `Date.now()` timestamp is never 0, so JS truthiness of
the stored value is plain presence); AABB-overlap test against the
teleporter's current bounds; on hit relocate just above the target
teleporter with velocity zeroed, stamp the cooldown, and prune stale
entries. -/
def teleStep (now : ℤ) (ti : ℕ) (st : GState) (r : Ref) : GState :=
  match st.levelObjects[ti]? with
  | none => st
  | some t =>
    match getEnt st r with
    | none => st
    | some (oid, b) =>
      if oid = GId.strId t.id then st
      else
        let gated :=
          match lookupCd st.teleportCooldowns oid with
          | some last => decide (now - last < 5000)
          | none => false
        if gated then st
        else
          let tb := t.body
          if ¬(b.maxx < tb.minx ∨ b.minx > tb.maxx ∨
               b.maxy < tb.miny ∨ b.miny > tb.maxy) then
            match st.levelObjects.find? (fun o =>
                t.teleporterTarget = some o.id && o.props.contains "teleporter") with
            | some target =>
              let st1 := setBodyAt st r (fun bb =>
                setVelocityB (setPositionB bb target.body.x (target.body.y - 50)) 0 0)
              { st1 with
                teleportCooldowns := pruneCds now (setCd st1.teleportCooldowns oid now) }
            | none => st
          else st

/-- `handleTeleporters()`: early return when no teleporter is present, else
the captured teleporter list iterated over the captured movable list.
`now` is the `Date.now()` of the tick. -/
def handleTeleporters (s : GState) (now : ℤ) : GState :=
  let telIdx := teleporterIdxs s
  if telIdx.isEmpty then s
  else
    let movs := movableRefs s
    telIdx.foldl (fun st ti => movs.foldl (teleStep now ti) st) s

/-- `applyPlayerInputs`' force vector from the four directional booleans
(plain summation, diagonals not normalized). -/
def inputForce (inp : MoveInput) : ℚ × ℚ :=
  ((if inp.left then -0.003 else 0) + (if inp.right then 0.003 else 0),
   (if inp.up then -0.003 else 0) + (if inp.down then 0.003 else 0))

/-- `applyPlayerInputs()`: for each player with pending input apply the
summed force to its body (`applyForceB` feeds the engine-internal
accumulator, so the observable body is unchanged). -/
def applyPlayerInputs (s : GState) : GState :=
  { s with players := s.players.map (fun p =>
      match p.input with
      | some inp =>
        let f := inputForce inp
        if f.1 ≠ 0 ∨ f.2 ≠ 0 then { p with body := applyForceB p.body f.1 f.2 }
        else p
      | none => p) }

/-- `updateBeamEffects()`: for every beam-active player, overlap-test the
candidates against the beam trapezoid and apply the inverse-distance-scaled
lift and attraction forces plus render highlighting.  Every one of those
effects lands in the black-box engine (force accumulators) or in render
state, neither of which is part of the observable model, so the function is
the identity on `GState`; in particular it never writes `beamTarget`. -/
def updateBeamEffects (s : GState) : GState := s

/-- The position-sync pass of `updateGameState`: copy each player's body
position into its cached `x`/`y`. -/
def syncPlayerPositions (s : GState) : GState :=
  { s with players := s.players.map (fun p => { p with x := p.body.x, y := p.body.y }) }

/-- The goal proximity test of `checkWinCondition`: the source compares
`Math.sqrt(dx^2 + dy^2) < 50` against the goal's descriptor coordinates;
squaring both (nonnegative) sides gives this equivalent exact form. -/
def closeToGoal (m : FreeBody) (g : LObj) : Bool :=
  decide ((m.body.x - g.x) ^ 2 + (m.body.y - g.y) ^ 2 < 50 ^ 2)

/-- JS truthiness of an optional string (`goal.nextLevel` — absent and the
empty string are both falsy). -/
def jsStrTruthy (o : Option String) : Option String :=
  match o with
  | some v => if v = "" then none else some v
  | none => none

/-- `checkWinCondition()`: `none` for no win (no goals, or no marble within
the capture radius of any goal); `some nl` on a win, carrying the triggering
goal's truthy `nextLevel` if present.  The source returns at the first
(goal, marble) pair in iteration order; the result depends only on the first
goal with any close marble, which `findSome?` reproduces. -/
def checkWinCondition (s : GState) : Option (Option String) :=
  let goals := s.levelObjects.filter (fun o => o.props.contains "goal")
  if goals.isEmpty then none
  else
    goals.findSome? (fun g =>
      if s.marbles.any (fun m => closeToGoal m g) then some (jsStrTruthy g.nextLevel)
      else none)

/-- The per-player XP award of the win branch: `xp += 100`, then a single
level-up (never more than one) when the threshold `level * 1000` is
reached, resetting xp to 0. -/
def awardXp (p : Player) : Player :=
  let xp1 := p.xp + 100
  if xp1 ≥ p.level * 1000 then { p with xp := 0, level := p.level + 1 }
  else { p with xp := xp1 }

/-- The win-condition branch of `updateGameState`: on a win award XP to all
players and, when the triggering goal carried a truthy `nextLevel`, emit the
`loadNextLevel` event. -/
def winStage (s : GState) : GState :=
  match checkWinCondition s with
  | none => s
  | some nl =>
    let s1 := { s with players := s.players.map awardXp }
    match nl with
    | some name => { s1 with events := s1.events ++ [.loadNextLevel name] }
    | none => s1

/-- `this.levelObjects.find(obj => obj.properties.includes('spawnpoint'))`.
The fall-respawn passes call this on the live array mid-iteration, but they
mutate only bodies while the lookup reads only descriptor fields
(`properties`, `x`, `y`), so reading from the pass's input state is
equivalent. -/
def findSpawnpoint (s : GState) : Option LObj :=
  s.levelObjects.find? (fun o => o.props.contains "spawnpoint")

/-- Player respawn target lookup: `playerspawn` first, then `spawnpoint`. -/
def findPlayerRespawn (s : GState) : Option LObj :=
  match s.levelObjects.find? (fun o => o.props.contains "playerspawn") with
  | some o => some o
  | none => s.levelObjects.find? (fun o => o.props.contains "spawnpoint")

/-- Fall-respawn pass for marbles: any marble whose y exceeds the lower
bound 1200 is placed 50 above the first spawnpoint with velocity zeroed
(no-op when the level has no spawnpoint). -/
def respawnFallenMarbles (s : GState) : GState :=
  { s with marbles := s.marbles.map (fun m =>
      if m.body.y > 1200 then
        match findSpawnpoint s with
        | some sp =>
          { m with body := setVelocityB (setPositionB m.body sp.x (sp.y - 50)) 0 0 }
        | none => m
      else m) }

/-- The per-object respawn of the fallen-level-object pass (body-only
update; descriptor fields are untouched). -/
def fallenObjF (s : GState) (o : LObj) : LObj :=
  if !o.isStatic && decide (o.body.y > 1200) then
    match findSpawnpoint s with
    | some sp =>
      { o with body := setVelocityB (setPositionB o.body sp.x (sp.y - 50)) 0 0 }
    | none => o
  else o

/-- Fall-respawn pass for non-static level objects (all live entries have
bodies, so the `obj.body` truthiness check always passes). -/
def respawnFallenObjects (s : GState) : GState :=
  { s with levelObjects := s.levelObjects.map (fallenObjF s) }

/-- Fallen-emote pass: emotes past the lower bound are removed from the
world (`Matter.World.remove` on each) and dropped from the live
collection. -/
def removeFallenEmotes (s : GState) : GState :=
  let fallenBids := (s.emotes.filter (fun e => decide (e.body.y > 1200))).map
    (fun e => e.body.bid)
  { s with
    emotes := s.emotes.filter (fun e => ¬(e.body.y > 1200))
    world := s.world.filter (fun t => ¬ fallenBids.contains t) }

/-- The respawn coordinates a fallen player is sent to: the best-available
spawn (priority `playerspawn` then `spawnpoint`), else the hardcoded safe
spot (400, 200). -/
def playerRespawnXY (s : GState) : ℤ × ℤ :=
  match findPlayerRespawn s with
  | some o => (o.x, o.y)
  | none => (400, 200)

/-- Fall-respawn pass for players: position and cached x/y set to the
respawn coordinates, velocity zeroed. -/
def respawnFallenPlayers (s : GState) : GState :=
  { s with players := s.players.map (fun p =>
      if p.body.y > (1200 : ℤ) then
        let rxy := playerRespawnXY s
        { p with
          body := setVelocityB (setPositionB p.body rxy.1 rxy.2) 0 0
          x := rxy.1
          y := rxy.2 }
      else p) }

/-- The bounds-enforcement tail of `updateGameState`, in source order:
marbles, non-static level objects, emotes, players. -/
def enforceWorldBounds (s : GState) : GState :=
  respawnFallenPlayers (removeFallenEmotes (respawnFallenObjects (respawnFallenMarbles s)))

/-- One tick of `updateGameState()`: apply inputs, continuous beam effects,
sync player display positions, evaluate the win condition, resolve
teleporters, enforce world bounds.  `now` is the tick's `Date.now()`. -/
def updateGameState (s : GState) (now : ℤ) : GState :=
  enforceWorldBounds
    (handleTeleporters
      (winStage (syncPlayerPositions (updateBeamEffects (applyPlayerInputs s)))) now)

end TickPipeline

section TickLemmas

/-- The progression counters of a player. -/
def playerProg (p : Player) : ℤ × ℤ := (p.xp, p.level)

theorem foldl_preserve {α β : Type} {P : α → Prop} {f : α → β → α}
    (h : ∀ a b, P a → P (f a b)) :
    ∀ (l : List β) (a : α), P a → P (l.foldl f a)
  | [], _, ha => ha
  | b :: l, a, ha => foldl_preserve h l (f a b) (h a b ha)

theorem map_id_of {α : Type} {f : α → α} (h : ∀ a, f a = a) :
    ∀ l : List α, l.map f = l
  | [] => rfl
  | a :: l => by rw [List.map_cons, h a, map_id_of h l]

theorem map_map_proj {α β : Type} (f : α → α) (proj : α → β)
    (h : ∀ a, proj (f a) = proj a) (l : List α) :
    (l.map f).map proj = l.map proj := by
  induction l with
  | nil => rfl
  | cons a l ih => rw [List.map_cons, List.map_cons, List.map_cons, h a, ih]

theorem map_modify_proj {α β : Type} (g : α → α) (proj : α → β)
    (h : ∀ a, proj (g a) = proj a) (i : ℕ) (l : List α) :
    (List.modify g i l).map proj = l.map proj := by
  apply List.ext_getElem?
  intro j
  rw [List.getElem?_map, List.getElem?_map, List.getElem?_modify]
  cases l[j]? with
  | none => rfl
  | some a =>
    simp only [Option.map_some']
    by_cases hij : i = j <;> simp [hij, h a]

theorem playerInputStep_id (p : Player) :
    (match p.input with
     | some inp =>
       let f := inputForce inp
       if f.1 ≠ 0 ∨ f.2 ≠ 0 then { p with body := applyForceB p.body f.1 f.2 }
       else p
     | none => p) = p := by
  cases hp : p.input with
  | none => rfl
  | some inp =>
    simp only []
    split
    · rw [← hp]
      rfl
    · rfl

/-- Player-input forces feed only the engine-internal accumulator, so this
pass changes nothing observable. -/
theorem applyPlayerInputs_eq (s : GState) : applyPlayerInputs s = s := by
  unfold applyPlayerInputs
  rw [map_id_of playerInputStep_id]

theorem updateGameState_eq (s : GState) (now : ℤ) :
    updateGameState s now =
      enforceWorldBounds
        (handleTeleporters (winStage (syncPlayerPositions s)) now) := by
  unfold updateGameState updateBeamEffects
  rw [applyPlayerInputs_eq]

theorem checkWinCondition_sync (s : GState) :
    checkWinCondition (syncPlayerPositions s) = checkWinCondition s := rfl

theorem setBodyAt_prog (st : GState) (r : Ref) (f : Body → Body) :
    (setBodyAt st r f).players.map playerProg = st.players.map playerProg ∧
    (setBodyAt st r f).events = st.events := by
  cases r with
  | rMarble i => exact ⟨rfl, rfl⟩
  | rEmote i => exact ⟨rfl, rfl⟩
  | rLevelObj i => exact ⟨rfl, rfl⟩
  | rPlayer i =>
    refine ⟨?_, rfl⟩
    exact map_modify_proj (fun p => { p with body := f p.body }) playerProg
      (fun p => rfl) i st.players

theorem teleStep_prog (now : ℤ) (ti : ℕ) (st : GState) (r : Ref) :
    (teleStep now ti st r).players.map playerProg = st.players.map playerProg ∧
    (teleStep now ti st r).events = st.events := by
  unfold teleStep
  dsimp only
  repeat' split
  all_goals
    first
      | exact ⟨rfl, rfl⟩
      | exact ⟨(setBodyAt_prog st _ _).1, (setBodyAt_prog st _ _).2⟩

theorem handleTeleporters_prog (s : GState) (now : ℤ) :
    (handleTeleporters s now).players.map playerProg = s.players.map playerProg ∧
    (handleTeleporters s now).events = s.events := by
  unfold handleTeleporters
  dsimp only
  split
  · exact ⟨rfl, rfl⟩
  · refine foldl_preserve (P := fun st =>
      st.players.map playerProg = s.players.map playerProg ∧ st.events = s.events)
      (fun st ti hst => ?_) (teleporterIdxs s) s ⟨rfl, rfl⟩
    refine foldl_preserve (P := fun st =>
      st.players.map playerProg = s.players.map playerProg ∧ st.events = s.events)
      (fun st2 r hst2 => ?_) (movableRefs s) st hst
    obtain ⟨h1, h2⟩ := teleStep_prog now ti st2 r
    exact ⟨h1.trans hst2.1, h2.trans hst2.2⟩

theorem enforceWorldBounds_prog (s : GState) :
    (enforceWorldBounds s).players.map playerProg = s.players.map playerProg ∧
    (enforceWorldBounds s).events = s.events := by
  refine ⟨?_, rfl⟩
  show ((removeFallenEmotes (respawnFallenObjects (respawnFallenMarbles s))).players.map
      _).map playerProg = s.players.map playerProg
  exact map_map_proj _ playerProg (fun p => by split <;> rfl) _

end TickLemmas

section WinClaims

/-- The level-transition events one winning tick publishes: one
`loadNextLevel` when the triggering goal carried a truthy `nextLevel`,
nothing otherwise. -/
def transitionEvents (nl : Option String) : List Event :=
  match nl with
  | some name => [Event.loadNextLevel name]
  | none => []

theorem winStage_win (s : GState) (nl : Option String)
    (h : checkWinCondition s = some nl) :
    (winStage s).players = s.players.map awardXp ∧
    (winStage s).events = s.events ++ transitionEvents nl := by
  have hws : winStage s =
      { s with
        players := s.players.map awardXp
        events := s.events ++ transitionEvents nl } := by
    unfold winStage
    rw [h]
    cases nl <;> simp [transitionEvents]
  rw [hws]
  exact ⟨rfl, rfl⟩

theorem winStage_nowin (s : GState) (h : checkWinCondition s = none) :
    winStage s = s := by
  unfold winStage
  rw [h]

theorem playerProg_awardXp_sync (p : Player) :
    playerProg (awardXp { p with x := p.body.x, y := p.body.y })
      = playerProg (awardXp p) := by
  simp only [awardXp, playerProg]
  split <;> rfl

/-- Progression-counter characterization of one tick on a winning state. -/
theorem updateGameState_prog_win (s : GState) (now : ℤ) (nl : Option String)
    (hwin : checkWinCondition s = some nl) :
    (updateGameState s now).players.map playerProg
      = s.players.map (fun p => playerProg (awardXp p)) := by
  have hsync : checkWinCondition (syncPlayerPositions s) = some nl := by
    rw [checkWinCondition_sync]
    exact hwin
  obtain ⟨hwp, _⟩ := winStage_win (syncPlayerPositions s) nl hsync
  obtain ⟨htp, _⟩ :=
    handleTeleporters_prog (winStage (syncPlayerPositions s)) now
  obtain ⟨hbp, _⟩ :=
    enforceWorldBounds_prog
      (handleTeleporters (winStage (syncPlayerPositions s)) now)
  rw [updateGameState_eq, hbp, htp, hwp]
  show ((s.players.map fun p => { p with x := p.body.x, y := p.body.y }).map
      awardXp).map playerProg = _
  rw [List.map_map, List.map_map]
  exact List.map_congr_left (fun p _ => playerProg_awardXp_sync p)

/-- Event-log characterization of one tick on a winning state. -/
theorem updateGameState_events_win (s : GState) (now : ℤ) (nl : Option String)
    (hwin : checkWinCondition s = some nl) :
    (updateGameState s now).events = s.events ++ transitionEvents nl := by
  have hsync : checkWinCondition (syncPlayerPositions s) = some nl := by
    rw [checkWinCondition_sync]
    exact hwin
  obtain ⟨_, hwe⟩ := winStage_win (syncPlayerPositions s) nl hsync
  obtain ⟨_, hte⟩ :=
    handleTeleporters_prog (winStage (syncPlayerPositions s)) now
  obtain ⟨_, hbe⟩ :=
    enforceWorldBounds_prog
      (handleTeleporters (winStage (syncPlayerPositions s)) now)
  rw [updateGameState_eq, hbe, hte, hwe]
  rfl

/-- C2: on every tick whose win condition holds (some marble within the
capture radius of a goal-tagged object, reported by `checkWinCondition` as
`some nl`), every connected player gains exactly 100 xp; when the resulting
xp reaches `level * 1000` the level increments by exactly one and xp resets
to 0 (never more than one level per tick); and exactly when the triggering
goal carried a (truthy) `nextLevel`, one `loadNextLevel` event carrying that
name is published. -/
theorem updateGameState_win_awards (s : GState) (now : ℤ) (nl : Option String)
    (hwin : checkWinCondition s = some nl) :
    (updateGameState s now).players.length = s.players.length ∧
    (∀ (i : ℕ) (hi : i < s.players.length)
        (hi' : i < (updateGameState s now).players.length),
      if s.players[i].xp + 100 ≥ s.players[i].level * 1000 then
        (updateGameState s now).players[i].xp = 0 ∧
        (updateGameState s now).players[i].level = s.players[i].level + 1
      else
        (updateGameState s now).players[i].xp = s.players[i].xp + 100 ∧
        (updateGameState s now).players[i].level = s.players[i].level) ∧
    (updateGameState s now).events = s.events ++ transitionEvents nl := by
  have hprog := updateGameState_prog_win s now nl hwin
  have hlen : (updateGameState s now).players.length = s.players.length := by
    have := congrArg List.length hprog
    simpa using this
  refine ⟨hlen, ?_, updateGameState_events_win s now nl hwin⟩
  intro i hi hi'
  have hix : ((updateGameState s now).players.map playerProg)[i]?
      = (s.players.map (fun p => playerProg (awardXp p)))[i]? := by rw [hprog]
  rw [List.getElem?_map, List.getElem?_map, List.getElem?_eq_getElem hi',
    List.getElem?_eq_getElem hi] at hix
  simp only [Option.map_some'] at hix
  have hix' : playerProg ((updateGameState s now).players[i])
      = playerProg (awardXp s.players[i]) := by
    exact Option.some.inj hix
  unfold playerProg at hix'
  have hxp : (updateGameState s now).players[i].xp = (awardXp s.players[i]).xp :=
    congrArg Prod.fst hix'
  have hlv : (updateGameState s now).players[i].level = (awardXp s.players[i]).level :=
    congrArg Prod.snd hix'
  unfold awardXp at hxp hlv
  dsimp only at hxp hlv
  by_cases hcond : s.players[i].xp + 100 ≥ s.players[i].level * 1000
  · rw [if_pos hcond] at hxp hlv ⊢
    exact ⟨hxp, hlv⟩
  · rw [if_neg hcond] at hxp hlv ⊢
    exact ⟨hxp, hlv⟩

/-- Witness state for C2: one player at 950 xp, a marble resting exactly on
a goal carrying `nextLevel = "level2"`. -/
def gsWin2 : GState :=
  { emptyGS with
    players := [{ samplePlayer "bob" 5 with xp := 950 }]
    marbles := [{ id := .numId 1, body := marbleBody 100 100 12, type := "marble" }]
    levelObjects :=
      [{ id := "goal1", shape := .circle 10, x := 100, y := 100, isStatic := true
         props := ["goal"], nextLevel := some "level2"
         body := circleBody 100 100 10 0xFFFFFFFF 11 }]
    world := [5, 11, 12]
    nextBid := 20 }

/-- Witness for C2 at a concrete winning tick. -/
theorem updateGameState_win_awards_witness :
    checkWinCondition gsWin2 = some (some "level2") ∧
    (updateGameState gsWin2 0).players.length = gsWin2.players.length ∧
    (updateGameState gsWin2 0).events
      = gsWin2.events ++ transitionEvents (some "level2") :=
  ⟨by decide,
   (updateGameState_win_awards gsWin2 0 (some "level2") (by decide)).1,
   (updateGameState_win_awards gsWin2 0 (some "level2") (by decide)).2.2⟩

theorem updateGameState_prog_nowin (s : GState) (now : ℤ)
    (h : checkWinCondition s = none) :
    (updateGameState s now).players.map playerProg
      = s.players.map playerProg := by
  have hsync : checkWinCondition (syncPlayerPositions s) = none := by
    rw [checkWinCondition_sync]
    exact h
  obtain ⟨htp, _⟩ :=
    handleTeleporters_prog (winStage (syncPlayerPositions s)) now
  obtain ⟨hbp, _⟩ :=
    enforceWorldBounds_prog
      (handleTeleporters (winStage (syncPlayerPositions s)) now)
  rw [updateGameState_eq, hbp, htp, winStage_nowin _ hsync]
  show (s.players.map fun p => { p with x := p.body.x, y := p.body.y }).map
      playerProg = _
  exact map_map_proj (fun p => { p with x := p.body.x, y := p.body.y }) playerProg
    (fun p => rfl) s.players

theorem map_proj_getElem {α γ β : Type} (proj1 : α → β) (proj2 : γ → β)
    {l1 : List α} {l2 : List γ}
    (h : l1.map proj1 = l2.map proj2) (i : ℕ) (h1 : i < l1.length)
    (h2 : i < l2.length) : proj1 l1[i] = proj2 l2[i] := by
  have hq := congrArg (fun l => l[i]?) h
  simp only [List.getElem?_map] at hq
  rw [List.getElem?_eq_getElem h1, List.getElem?_eq_getElem h2] at hq
  simpa using hq

/-- C8 amended: across one tick each player's `level` never decreases and
advances by at most one, and `xp` never decreases except in the level-up
case, where it resets to 0 while the level increments. -/
theorem updateGameState_level_monotone_xp_reset (s : GState) (now : ℤ) :
    (updateGameState s now).players.length = s.players.length ∧
    ∀ (i : ℕ) (hi : i < s.players.length)
      (hi' : i < (updateGameState s now).players.length),
      s.players[i].level ≤ (updateGameState s now).players[i].level ∧
      (updateGameState s now).players[i].level ≤ s.players[i].level + 1 ∧
      (s.players[i].xp ≤ (updateGameState s now).players[i].xp ∨
        ((updateGameState s now).players[i].xp = 0 ∧
         (updateGameState s now).players[i].level = s.players[i].level + 1)) := by
  cases hcw : checkWinCondition s with
  | none =>
    have hprog := updateGameState_prog_nowin s now hcw
    have hlen : (updateGameState s now).players.length = s.players.length := by
      simpa using congrArg List.length hprog
    refine ⟨hlen, fun i hi hi' => ?_⟩
    have hpr := map_proj_getElem playerProg playerProg hprog i hi' hi
    have hxp : (updateGameState s now).players[i].xp = s.players[i].xp :=
      congrArg Prod.fst hpr
    have hlv : (updateGameState s now).players[i].level = s.players[i].level :=
      congrArg Prod.snd hpr
    exact ⟨le_of_eq hlv.symm, by rw [hlv]; linarith, Or.inl (le_of_eq hxp.symm)⟩
  | some nl =>
    have hprog := updateGameState_prog_win s now nl hcw
    have hlen : (updateGameState s now).players.length = s.players.length := by
      simpa using congrArg List.length hprog
    refine ⟨hlen, fun i hi hi' => ?_⟩
    have hpr := map_proj_getElem playerProg (fun p => playerProg (awardXp p))
      hprog i hi' hi
    have hxp : (updateGameState s now).players[i].xp
        = (awardXp s.players[i]).xp := congrArg Prod.fst hpr
    have hlv : (updateGameState s now).players[i].level
        = (awardXp s.players[i]).level := congrArg Prod.snd hpr
    unfold awardXp at hxp hlv
    dsimp only at hxp hlv
    by_cases hcond : s.players[i].xp + 100 ≥ s.players[i].level * 1000
    · rw [if_pos hcond] at hxp hlv
      dsimp only at hxp hlv
      refine ⟨by rw [hlv]; linarith, by rw [hlv], Or.inr ⟨hxp, hlv⟩⟩
    · rw [if_neg hcond] at hxp hlv
      dsimp only at hxp hlv
      exact ⟨le_of_eq hlv.symm, by rw [hlv]; linarith,
        Or.inl (by rw [hxp]; linarith)⟩

/-- Witness for the amended C8 at a concrete tick and player index. -/
theorem updateGameState_level_monotone_xp_reset_witness :
    0 < gs9.players.length ∧
    0 < (updateGameState gs9 0).players.length ∧
    (gs9.players.get ⟨0, by decide⟩).level
      ≤ ((updateGameState gs9 0).players.get ⟨0, by decide⟩).level :=
  ⟨by decide, by decide,
   ((updateGameState_level_monotone_xp_reset gs9 0).2 0 (by decide) (by decide)).1⟩

/-- Counterexample state for C8: one player at 900 xp on a winning tick (a
marble rests on a goal without `nextLevel`). -/
def gs8 : GState :=
  { emptyGS with
    players := [{ samplePlayer "carol" 6 with xp := 900 }]
    marbles := [{ id := .numId 2, body := marbleBody 100 100 13, type := "marble" }]
    levelObjects :=
      [{ id := "goalz", shape := .circle 10, x := 100, y := 100, isStatic := true
         props := ["goal"], body := circleBody 100 100 10 0xFFFFFFFF 14 }]
    world := [6, 13, 14]
    nextBid := 30 }

/-- Counterexample to C8 as stated: on the level-up tick the player's xp
drops from 900 to 0 (while the level rises to 2) — xp is not monotonically
increasing. -/
theorem xp_not_monotone_cex :
    gs8.players.map (fun p => p.xp) = [900] ∧
    (updateGameState gs8 0).players.map (fun p => p.xp) = [0] ∧
    (updateGameState gs8 0).players.map (fun p => p.level) = [2] ∧
    ¬((900 : ℤ) ≤ 0) := by decide

end WinClaims

section BoundsClaims

theorem getElem_eq_of_list_eq {α : Type} {l1 l2 : List α} (h : l1 = l2)
    (i : ℕ) (h1 : i < l1.length) (h2 : i < l2.length) : l1[i] = l2[i] := by
  cases h
  rfl

theorem fallenObjF_toLevelObject (s : GState) (o : LObj) :
    (fallenObjF s o).toLevelObject = o.toLevelObject := by
  unfold fallenObjF
  split
  · split <;> rfl
  · rfl

theorem fallenObjF_props (s : GState) (o : LObj) :
    (fallenObjF s o).props = o.props :=
  congrArg LevelObject.props (fallenObjF_toLevelObject s o)

theorem fallenObjF_x (s : GState) (o : LObj) : (fallenObjF s o).x = o.x :=
  congrArg LevelObject.x (fallenObjF_toLevelObject s o)

theorem fallenObjF_y (s : GState) (o : LObj) : (fallenObjF s o).y = o.y :=
  congrArg LevelObject.y (fallenObjF_toLevelObject s o)

theorem find?_map_fallen (s : GState) (tag : String) :
    ∀ l : List LObj,
      Option.map (fun o => ((o : LObj).x, o.y))
          ((l.map (fallenObjF s)).find? (fun o => o.props.contains tag))
        = Option.map (fun o => ((o : LObj).x, o.y))
            (l.find? (fun o => o.props.contains tag))
  | [] => rfl
  | o :: l => by
    by_cases h : o.props.contains tag = true
    · rw [List.map_cons,
        @List.find?_cons_of_pos LObj (fun o => o.props.contains tag)
          (fallenObjF s o) (l.map (fallenObjF s))
          (by simpa [fallenObjF_props] using h),
        @List.find?_cons_of_pos LObj (fun o => o.props.contains tag) o l h]
      simp [fallenObjF_x, fallenObjF_y]
    · rw [List.map_cons,
        @List.find?_cons_of_neg LObj (fun o => o.props.contains tag)
          (fallenObjF s o) (l.map (fallenObjF s))
          (by simpa [fallenObjF_props] using h),
        @List.find?_cons_of_neg LObj (fun o => o.props.contains tag) o l h,
        find?_map_fallen s tag l]

/-- The player-respawn lookup after the earlier bounds passes sees the same
spawn coordinates: those passes only move bodies, never descriptors. -/
theorem findPlayerRespawn_proj_stable (s : GState) :
    Option.map (fun o => ((o : LObj).x, o.y))
        (findPlayerRespawn
          (removeFallenEmotes (respawnFallenObjects (respawnFallenMarbles s))))
      = Option.map (fun o => ((o : LObj).x, o.y)) (findPlayerRespawn s) := by
  unfold findPlayerRespawn
  have hZ : (removeFallenEmotes (respawnFallenObjects
      (respawnFallenMarbles s))).levelObjects
      = s.levelObjects.map (fallenObjF s) := rfl
  rw [hZ]
  have l1 := find?_map_fallen s "playerspawn" s.levelObjects
  have l2 := find?_map_fallen s "spawnpoint" s.levelObjects
  cases hA : (s.levelObjects.map (fallenObjF s)).find?
      (fun o => o.props.contains "playerspawn") with
  | some oz =>
    rw [hA] at l1
    cases hB : s.levelObjects.find? (fun o => o.props.contains "playerspawn") with
    | some ob =>
      rw [hB] at l1
      simpa using l1
    | none =>
      rw [hB] at l1
      simp at l1
  | none =>
    rw [hA] at l1
    cases hB : s.levelObjects.find? (fun o => o.props.contains "playerspawn") with
    | some ob =>
      rw [hB] at l1
      simp at l1
    | none =>
      simpa using l2

theorem playerRespawnXY_getD (s : GState) :
    playerRespawnXY s
      = (Option.map (fun o => ((o : LObj).x, o.y)) (findPlayerRespawn s)).getD
          (400, 200) := by
  unfold playerRespawnXY
  cases findPlayerRespawn s <;> rfl

theorem playerRespawnXY_stable (s : GState) :
    playerRespawnXY
        (removeFallenEmotes (respawnFallenObjects (respawnFallenMarbles s)))
      = playerRespawnXY s := by
  rw [playerRespawnXY_getD, playerRespawnXY_getD, findPlayerRespawn_proj_stable]

/-- C4: bounds enforcement.  Every marble, non-static level object or player
whose y exceeds 1200 is relocated to the best-available spawn target
(marbles/objects: 50 above the first spawnpoint; players: the playerspawn,
falling back to spawnpoint) with velocity zeroed (players also get their
cached x/y updated), provided such a spawn object exists; an entity at or
below the threshold is untouched; an emote past the bound is removed from
both the live collection and the physics world. -/
theorem enforceWorldBounds_fall_rules (s : GState) :
    ((enforceWorldBounds s).marbles.length = s.marbles.length ∧
     ∀ (i : ℕ) (hi : i < s.marbles.length)
       (hi' : i < (enforceWorldBounds s).marbles.length),
       (∀ sp, s.marbles[i].body.y > 1200 → findSpawnpoint s = some sp →
         (enforceWorldBounds s).marbles[i].body.x = sp.x ∧
         (enforceWorldBounds s).marbles[i].body.y = sp.y - 50 ∧
         (enforceWorldBounds s).marbles[i].body.vx = 0 ∧
         (enforceWorldBounds s).marbles[i].body.vy = 0) ∧
       (s.marbles[i].body.y ≤ 1200 →
         (enforceWorldBounds s).marbles[i] = s.marbles[i])) ∧
    ((enforceWorldBounds s).levelObjects.length = s.levelObjects.length ∧
     ∀ (i : ℕ) (hi : i < s.levelObjects.length)
       (hi' : i < (enforceWorldBounds s).levelObjects.length),
       (∀ sp, s.levelObjects[i].isStatic = false →
         s.levelObjects[i].body.y > 1200 → findSpawnpoint s = some sp →
         (enforceWorldBounds s).levelObjects[i].body.x = sp.x ∧
         (enforceWorldBounds s).levelObjects[i].body.y = sp.y - 50 ∧
         (enforceWorldBounds s).levelObjects[i].body.vx = 0 ∧
         (enforceWorldBounds s).levelObjects[i].body.vy = 0) ∧
       (s.levelObjects[i].body.y ≤ 1200 →
         (enforceWorldBounds s).levelObjects[i] = s.levelObjects[i])) ∧
    ((enforceWorldBounds s).players.length = s.players.length ∧
     ∀ (i : ℕ) (hi : i < s.players.length)
       (hi' : i < (enforceWorldBounds s).players.length),
       (∀ o, s.players[i].body.y > 1200 → findPlayerRespawn s = some o →
         (enforceWorldBounds s).players[i].body.x = o.x ∧
         (enforceWorldBounds s).players[i].body.y = o.y ∧
         (enforceWorldBounds s).players[i].body.vx = 0 ∧
         (enforceWorldBounds s).players[i].body.vy = 0 ∧
         (enforceWorldBounds s).players[i].x = o.x ∧
         (enforceWorldBounds s).players[i].y = o.y) ∧
       (s.players[i].body.y ≤ 1200 →
         (enforceWorldBounds s).players[i] = s.players[i])) ∧
    ((enforceWorldBounds s).emotes
        = s.emotes.filter (fun e => ¬(e.body.y > 1200)) ∧
     ∀ e ∈ s.emotes, e.body.y > 1200 →
       e ∉ (enforceWorldBounds s).emotes ∧
       e.body.bid ∉ (enforceWorldBounds s).world) := by
  have hm : (enforceWorldBounds s).marbles
      = s.marbles.map (fun m =>
          if m.body.y > 1200 then
            match findSpawnpoint s with
            | some sp =>
              { m with body := setVelocityB (setPositionB m.body sp.x (sp.y - 50)) 0 0 }
            | none => m
          else m) := rfl
  have ho : (enforceWorldBounds s).levelObjects
      = s.levelObjects.map (fallenObjF s) := rfl
  have hp : (enforceWorldBounds s).players
      = s.players.map (fun p =>
          if p.body.y > (1200 : ℤ) then
            let rxy := playerRespawnXY
              (removeFallenEmotes (respawnFallenObjects (respawnFallenMarbles s)))
            { p with
              body := setVelocityB (setPositionB p.body rxy.1 rxy.2) 0 0
              x := rxy.1
              y := rxy.2 }
          else p) := rfl
  rw [playerRespawnXY_stable] at hp
  have he : (enforceWorldBounds s).emotes
      = s.emotes.filter (fun e => ¬(e.body.y > 1200)) := rfl
  have hw : (enforceWorldBounds s).world
      = s.world.filter (fun t =>
          ¬((s.emotes.filter (fun e => decide (e.body.y > 1200))).map
              (fun e => e.body.bid)).contains t) := rfl
  refine ⟨⟨by rw [hm]; simp, ?_⟩, ⟨by rw [ho]; simp, ?_⟩,
    ⟨by rw [hp]; simp, ?_⟩, he, ?_⟩
  · intro i hi hi'
    have hgi : (enforceWorldBounds s).marbles[i]
        = (s.marbles.map (fun m =>
            if m.body.y > 1200 then
              match findSpawnpoint s with
              | some sp =>
                { m with
                  body := setVelocityB (setPositionB m.body sp.x (sp.y - 50)) 0 0 }
              | none => m
            else m))[i] :=
      getElem_eq_of_list_eq hm i hi' (by simpa using hi)
    rw [List.getElem_map] at hgi
    constructor
    · intro sp hy hsp
      rw [hgi]
      simp only [if_pos hy, hsp]
      refine ⟨?_, ?_, rfl, rfl⟩ <;> simp [setPositionB, setVelocityB]
    · intro hy
      rw [hgi, if_neg (by omega)]
  · intro i hi hi'
    have hgi : (enforceWorldBounds s).levelObjects[i]
        = (s.levelObjects.map (fallenObjF s))[i] :=
      getElem_eq_of_list_eq ho i hi' (by simpa using hi)
    rw [List.getElem_map] at hgi
    constructor
    · intro sp hst hy hsp
      rw [hgi]
      unfold fallenObjF
      rw [if_pos (by simp [hst, hy])]
      simp only [hsp]
      refine ⟨?_, ?_, rfl, rfl⟩ <;> simp [setPositionB, setVelocityB]
    · intro hy
      rw [hgi]
      unfold fallenObjF
      rw [if_neg (by simp; omega)]
  · intro i hi hi'
    have hgi := getElem_eq_of_list_eq hp i hi' (by simpa using hi)
    rw [List.getElem_map] at hgi
    constructor
    · intro o hy hfind
      have hxy : playerRespawnXY s = (o.x, o.y) := by
        unfold playerRespawnXY
        simp only [hfind]
      rw [hgi, if_pos hy]
      dsimp only
      rw [hxy]
      refine ⟨?_, ?_, rfl, rfl, rfl, rfl⟩ <;> simp [setPositionB, setVelocityB]
    · intro hy
      rw [hgi, if_neg (by omega)]
  · intro e he' hy
    constructor
    · rw [he]
      intro hmem
      have := List.of_mem_filter hmem
      simp at this
      omega
    · rw [hw]
      intro hmem
      have hno := List.of_mem_filter hmem
      have hin : e.body.bid ∈ (s.emotes.filter
          (fun e => decide (e.body.y > 1200))).map (fun e => e.body.bid) :=
        List.mem_map_of_mem _ (List.mem_filter.mpr ⟨he', by simpa using hy⟩)
      have hcont : ((s.emotes.filter (fun e => decide (e.body.y > 1200))).map
          (fun e => e.body.bid)).contains e.body.bid = true := by
        simp only [List.contains]
        exact List.elem_iff.mpr hin
      simp [hcont] at hno
      exact hno e he' hy rfl

/-- Witness spawnpoint object for C4. -/
def spObjW : LObj :=
  { id := "sp", shape := .circle 20, x := 100, y := 100, isStatic := true
    props := ["spawnpoint"], body := circleBody 100 100 20 0xFFFFFFFF 40 }

/-- Witness playerspawn object for C4. -/
def psObjW : LObj :=
  { id := "ps", shape := .circle 20, x := 200, y := 120, isStatic := true
    props := ["playerspawn"], body := circleBody 200 120 20 0xFFFFFFFF 41 }

/-- Witness state for C4: a fallen player (y = 1300), one fallen marble
(y = 1400), one marble exactly at the 1200 threshold (must not move), one
fallen emote, and both spawn objects. -/
def gs4 : GState :=
  { emptyGS with
    players := [{ samplePlayer "dave" 42 with
                  body := { sampleBody 42 with y := 1300 } }]
    marbles :=
      [{ id := .numId 7, body := marbleBody 500 1400 43, type := "marble" },
       { id := .numId 8, body := marbleBody 500 1200 44, type := "marble" }]
    emotes := [{ id := .numId 9, body := circleBody 600 1250 20 0xFFFFFFFF 45
                 type := "emote", name := "LUL", url := "u" }]
    levelObjects := [spObjW, psObjW]
    world := [40, 41, 42, 43, 44, 45]
    nextBid := 50 }

/-- Witness for C4 at a concrete state: the fallen marble lands on the
spawnpoint with zero velocity, the threshold marble is untouched, the fallen
player returns to the playerspawn, and the fallen emote leaves the live
collection. -/
theorem enforceWorldBounds_fall_rules_witness :
    findSpawnpoint gs4 = some spObjW ∧
    findPlayerRespawn gs4 = some psObjW ∧
    ((enforceWorldBounds gs4).marbles.get ⟨0, by decide⟩).body.x = spObjW.x ∧
    ((enforceWorldBounds gs4).marbles.get ⟨0, by decide⟩).body.vy = 0 ∧
    (enforceWorldBounds gs4).marbles.get ⟨1, by decide⟩
      = gs4.marbles.get ⟨1, by decide⟩ ∧
    ((enforceWorldBounds gs4).players.get ⟨0, by decide⟩).x = psObjW.x ∧
    gs4.emotes.get ⟨0, by decide⟩ ∉ (enforceWorldBounds gs4).emotes :=
  ⟨by decide, by decide,
   (((enforceWorldBounds_fall_rules gs4).1.2 0 (by decide) (by decide)).1
      spObjW (by decide) (by decide)).1,
   (((enforceWorldBounds_fall_rules gs4).1.2 0 (by decide) (by decide)).1
      spObjW (by decide) (by decide)).2.2.2,
   ((enforceWorldBounds_fall_rules gs4).1.2 1 (by decide) (by decide)).2
      (by decide),
   ((((enforceWorldBounds_fall_rules gs4).2.2.1.2 0 (by decide) (by decide)).1
      psObjW (by decide) (by decide)).2.2.2.2.1),
   (((enforceWorldBounds_fall_rules gs4).2.2.2.2 (gs4.emotes.get ⟨0, by decide⟩)
      (by decide) (by decide)).1)⟩

end BoundsClaims

section TeleportClaims

theorem getElem?_modify_ne {α : Type} (g : α → α) (i j : ℕ) (l : List α)
    (h : i ≠ j) : (List.modify g i l)[j]? = l[j]? := by
  rw [List.getElem?_modify]
  cases l[j]? <;> simp [h]

theorem setBodyAt_cd (st : GState) (r : Ref) (f : Body → Body) :
    (setBodyAt st r f).teleportCooldowns = st.teleportCooldowns := by
  cases r <;> rfl

theorem getEnt_cdUpdate (st : GState) (c : List (GId × ℤ)) (r : Ref) :
    getEnt { st with teleportCooldowns := c } r = getEnt st r := by
  cases r <;> rfl

theorem getEnt_setBodyAt_ne (st : GState) (r' r : Ref) (f : Body → Body)
    (h : r ≠ r') : getEnt (setBodyAt st r' f) r = getEnt st r := by
  cases r with
  | rMarble i =>
    cases r' with
    | rMarble j =>
      have hij : j ≠ i := fun hx => h (by rw [hx])
      simp only [getEnt, setBodyAt]
      rw [getElem?_modify_ne _ _ _ _ hij]
    | rEmote j => rfl
    | rLevelObj j => rfl
    | rPlayer j => rfl
  | rEmote i =>
    cases r' with
    | rMarble j => rfl
    | rEmote j =>
      have hij : j ≠ i := fun hx => h (by rw [hx])
      simp only [getEnt, setBodyAt]
      rw [getElem?_modify_ne _ _ _ _ hij]
    | rLevelObj j => rfl
    | rPlayer j => rfl
  | rLevelObj i =>
    cases r' with
    | rMarble j => rfl
    | rEmote j => rfl
    | rLevelObj j =>
      have hij : j ≠ i := fun hx => h (by rw [hx])
      simp only [getEnt, setBodyAt]
      rw [getElem?_modify_ne _ _ _ _ hij]
    | rPlayer j => rfl
  | rPlayer i =>
    cases r' with
    | rMarble j => rfl
    | rEmote j => rfl
    | rLevelObj j => rfl
    | rPlayer j =>
      have hij : j ≠ i := fun hx => h (by rw [hx])
      simp only [getEnt, setBodyAt]
      rw [getElem?_modify_ne _ _ _ _ hij]

theorem find?_key_map_set (k id : GId) (v : ℤ) (h : k ≠ id) :
    ∀ l : List (GId × ℤ),
      (l.map (fun p => if p.1 = k then (k, v) else p)).find? (fun p => p.1 = id)
        = l.find? (fun p => p.1 = id)
  | [] => rfl
  | p :: l => by
    by_cases hk : p.1 = k
    · rw [List.map_cons, if_pos hk]
      rw [@List.find?_cons_of_neg (GId × ℤ) (fun p => p.1 = id) (k, v) _
        (by simpa using h)]
      rw [@List.find?_cons_of_neg (GId × ℤ) (fun p => p.1 = id) p l
        (by simp [hk, h])]
      exact find?_key_map_set k id v h l
    · rw [List.map_cons, if_neg hk]
      by_cases hid : p.1 = id
      · rw [@List.find?_cons_of_pos (GId × ℤ) (fun p => p.1 = id) p _
          (by simpa using hid),
          @List.find?_cons_of_pos (GId × ℤ) (fun p => p.1 = id) p l
          (by simpa using hid)]
      · rw [@List.find?_cons_of_neg (GId × ℤ) (fun p => p.1 = id) p _
          (by simpa using hid),
          @List.find?_cons_of_neg (GId × ℤ) (fun p => p.1 = id) p l
          (by simpa using hid)]
        exact find?_key_map_set k id v h l

theorem lookupCd_setCd_ne (l : List (GId × ℤ)) (k id : GId) (v : ℤ)
    (h : k ≠ id) : lookupCd (setCd l k v) id = lookupCd l id := by
  unfold setCd
  split
  · unfold lookupCd
    rw [find?_key_map_set k id v h l]
  · unfold lookupCd
    rw [List.find?_append]
    cases hf : l.find? (fun p => p.1 = id) with
    | some p => rfl
    | none =>
      simp only [Option.none_or]
      rw [@List.find?_cons_of_neg (GId × ℤ) (fun p => p.1 = id) (k, v) []
        (by simpa using h)]
      rfl

theorem lookupCd_pruneCds (now : ℤ) :
    ∀ (l : List (GId × ℤ)) (id : GId) (T : ℤ),
      lookupCd l id = some T → ¬(now - T > 2000) →
      lookupCd (pruneCds now l) id = some T
  | [], id, T, h, _ => by simp [lookupCd] at h
  | p :: l, id, T, h, hk => by
    by_cases hid : p.1 = id
    · have hT : p.2 = T := by
        unfold lookupCd at h
        rw [@List.find?_cons_of_pos (GId × ℤ) (fun p => p.1 = id) p l
          (by simpa using hid)] at h
        simpa using h
      unfold pruneCds
      rw [List.filter_cons, if_pos (by simpa [hT] using hk)]
      unfold lookupCd
      rw [@List.find?_cons_of_pos (GId × ℤ) (fun p => p.1 = id) p _
        (by simpa using hid)]
      simpa using hT
    · have htail : lookupCd l id = some T := by
        unfold lookupCd at h ⊢
        rw [@List.find?_cons_of_neg (GId × ℤ) (fun p => p.1 = id) p l
          (by simpa using hid)] at h
        exact h
      have ih := lookupCd_pruneCds now l id T htail hk
      unfold pruneCds at ih ⊢
      rw [List.filter_cons]
      split
      · unfold lookupCd
        rw [@List.find?_cons_of_neg (GId × ℤ) (fun p => p.1 = id) p _
          (by simpa using hid)]
        exact ih
      · exact ih

/-- One teleporter/movable step keeps both the untouched bodies and the
cooldown entry of an entity whose entry is younger than the prune window:
its own steps are gated (the entry is present and inside the 5-second
window), other entities' teleports touch only their own body, and the prune
cannot remove an entry at most 2000 ms old. -/
theorem teleStep_gate_preserve (s : GState) (now T : ℤ) (id : GId)
    (hle : T ≤ now) (hwin : now - T ≤ 2000) (ti : ℕ) (r' : Ref) (st : GState)
    (hP : lookupCd st.teleportCooldowns id = some T ∧
      ∀ r b, getEnt s r = some (id, b) → getEnt st r = some (id, b)) :
    lookupCd (teleStep now ti st r').teleportCooldowns id = some T ∧
    ∀ r b, getEnt s r = some (id, b) →
      getEnt (teleStep now ti st r') r = some (id, b) := by
  obtain ⟨hcd, hent⟩ := hP
  unfold teleStep
  dsimp only
  repeat' split
  all_goals try exact ⟨hcd, hent⟩
  rename_i a1 a2 a3 a4 gid bb heqEnt hNotSelf hNotGated hCol a5 target hTgt
  have hnoid : gid ≠ id := by
    intro hoe
    apply hNotGated
    rw [hoe, hcd]
    show decide (now - T < 5000) = true
    simp only [decide_eq_true_eq]
    omega
  constructor
  · show lookupCd (pruneCds now (setCd (setBodyAt st r' _).teleportCooldowns
      gid now)) id = some T
    rw [setBodyAt_cd]
    exact lookupCd_pruneCds now _ id T
      (by rw [lookupCd_setCd_ne _ _ _ _ hnoid]; exact hcd) (by omega)
  · intro r b hb
    have hrne : r ≠ r' := by
      intro hre
      rw [hre] at hb
      have h2 := heqEnt.symm.trans (hent r' b hb)
      injection h2 with h3
      exact hnoid (congrArg Prod.fst h3)
    show getEnt { setBodyAt st r' _ with teleportCooldowns := _ } r = some (id, b)
    rw [getEnt_cdUpdate, getEnt_setBodyAt_ne st r' r _ hrne]
    exact hent r b hb

/-- C1 amended: the 5-second teleport gate holds only while the entity's
cooldown entry survives; since the prune (run on every successful teleport)
deletes entries strictly older than 2000 ms, an entity whose last teleport
is at most 2000 ms old is never teleported by `handleTeleporters` — its
bodies are untouched and its entry is kept.  Beyond 2000 ms the entry may be
pruned by another entity's teleport and the gate silently lapses before the
5 seconds are up (see the counterexample). -/
theorem handleTeleporters_gate_within_prune_window (s : GState) (now T : ℤ)
    (id : GId) (hcd : lookupCd s.teleportCooldowns id = some T)
    (hle : T ≤ now) (hwin : now - T ≤ 2000) :
    (∀ r b, getEnt s r = some (id, b) →
      getEnt (handleTeleporters s now) r = some (id, b)) ∧
    lookupCd (handleTeleporters s now).teleportCooldowns id = some T := by
  unfold handleTeleporters
  dsimp only
  split
  · exact ⟨fun _ _ h => h, hcd⟩
  · have hfold := foldl_preserve
      (P := fun st => lookupCd st.teleportCooldowns id = some T ∧
        ∀ r b, getEnt s r = some (id, b) → getEnt st r = some (id, b))
      (f := fun st ti => (movableRefs s).foldl (teleStep now ti) st)
      (fun st ti hst =>
        foldl_preserve
          (fun st2 r2 hst2 => teleStep_gate_preserve s now T id hle hwin ti r2 st2 hst2)
          (movableRefs s) st hst)
      (teleporterIdxs s) s ⟨hcd, fun _ _ h => h⟩
    exact ⟨hfold.2, hfold.1⟩

/-- A teleporter-scenario body: centred at `(cx, cy)` with half-extents
`(hx, hy)`. -/
def teleBody (cx cy hx hy : ℤ) (bid : ℕ) : Body :=
  { x := cx, y := cy, vx := 0, vy := 0, angle := 0
    minx := cx - hx, miny := cy - hy, maxx := cx + hx, maxy := cy + hy
    verts := [], mask := 0xFFFFFFFF, bid := bid }

/-- A teleporter-tagged level object for the C1 scenario. -/
def teleObj (oid : String) (target : Option String) (static : Bool)
    (b : Body) : LObj :=
  { id := oid, shape := .rectangle 1 1, x := b.x, y := b.y, isStatic := static
    props := ["teleporter"], teleporterTarget := target, body := b }

/-- Counterexample state for C1: teleporters C (movable, sitting inside A,
target D), E (target F) and A (target B), landing pads B, D, F, and marbles
m1 (inside A) and m2 (isolated, but inside C's bounds after A throws C onto
the B pad). -/
def gsT : GState :=
  { emptyGS with
    marbles :=
      [{ id := .numId 1, body := teleBody 40 0 10 10 7, type := "marble" },
       { id := .numId 2, body := teleBody 140 100 10 10 8, type := "marble" }]
    levelObjects :=
      [teleObj "C" (some "D") false (teleBody (-40) 0 60 10 1),
       teleObj "E" (some "F") true (teleBody 200 125 20 20 2),
       teleObj "A" (some "B") true (teleBody 0 0 50 50 3),
       teleObj "B" none true (teleBody 200 150 10 10 4),
       teleObj "D" none true (teleBody (-500) (-500) 10 10 5),
       teleObj "F" none true (teleBody 500 500 10 10 6)]
    world := [1, 2, 3, 4, 5, 6, 7, 8]
    nextBid := 9 }

/-- Counterexample to C1 as stated: marble m1 is teleported at time 1000
(onto pad B, inside teleporter E's zone, cooldown stamped), yet the tick at
time 3500 — only 2500 ms later, within the 5000 ms cooldown — teleports it
again (to pad F): m2's first teleport through C prunes m1's cooldown entry
(older than 2000 ms), so E's check sees no cooldown.  Pruning a cooldown
entry does cause a premature re-teleport. -/
theorem teleport_cooldown_cex :
    (getEnt gsT (Ref.rMarble 0)).map (fun e => (e.2.x, e.2.y))
      = some (40, 0) ∧
    (getEnt (handleTeleporters gsT 1000) (Ref.rMarble 0)).map
        (fun e => (e.2.x, e.2.y)) = some (200, 100) ∧
    lookupCd (handleTeleporters gsT 1000).teleportCooldowns (GId.numId 1)
      = some 1000 ∧
    (getEnt (handleTeleporters (handleTeleporters gsT 1000) 3500)
        (Ref.rMarble 0)).map (fun e => (e.2.x, e.2.y)) = some (500, 450) ∧
    (3500 : ℤ) < 1000 + 5000 := by decide

/-- Witness for the amended C1: 1500 ms after m1's teleport (inside the
prune window) the tick at time 2500 leaves m1 and its cooldown entry
alone. -/
theorem handleTeleporters_gate_witness :
    lookupCd (handleTeleporters gsT 1000).teleportCooldowns (GId.numId 1)
      = some 1000 ∧
    getEnt (handleTeleporters (handleTeleporters gsT 1000) 2500)
        (Ref.rMarble 0) = some (GId.numId 1, teleBody 200 100 10 10 7) :=
  ⟨by decide,
   (handleTeleporters_gate_within_prune_window (handleTeleporters gsT 1000)
      2500 1000 (GId.numId 1) (by decide) (by decide) (by decide)).1
     (Ref.rMarble 0) (teleBody 200 100 10 10 7) (by decide)⟩

end TeleportClaims

section BeamClaims

/-- `Matter.Vertices.contains(vertices, point)` (external library, small
enough to carry exactly): the point is inside iff it is on the inner side of
every directed edge; an empty vertex list contains everything (the JS loop
body never runs). -/
def verticesContains (verts : List Vec) (p : Vec) : Bool :=
  (List.range verts.length).all (fun i =>
    let v := verts[i]!
    let n := verts[(i + 1) % verts.length]!
    decide ((p.x - v.x) * (n.y - v.y) + (p.y - v.y) * (v.x - n.x) ≤ 0))

/-- The beam trapezoid under a player at `(px, py)`: beamWidth 80, beamRange
120, so the top edge is at half-width 40 and the bottom at 1.5 × width =
120. -/
def mkBeamVerts (px py : ℤ) : List Vec :=
  [⟨px - 40, py + 18⟩, ⟨px + 40, py + 18⟩,
   ⟨px + 120, py + 120⟩, ⟨px - 120, py + 120⟩]

/-- The candidate list of `handleBeamInteraction`, in source order: marbles,
emotes, non-static level objects, then every other player. -/
def beamCandidateRefs (s : GState) (pid : String) : List Ref :=
  (List.range s.marbles.length).map .rMarble ++
  (List.range s.emotes.length).map .rEmote ++
  ((List.range s.levelObjects.length).filter (fun i =>
    match s.levelObjects[i]? with
    | some o => !o.isStatic
    | none => false)).map .rLevelObj ++
  ((List.range s.players.length).filter (fun i =>
    match s.players[i]? with
    | some p => p.id ≠ pid
    | none => false)).map .rPlayer

/-- The symmetric overlap test of the beam pass: some candidate vertex lies
in the beam polygon, or some beam vertex lies in the candidate. -/
def overlapsBeam (s : GState) (beamVerts : List Vec) (r : Ref) : Bool :=
  match getEnt s r with
  | some (_, b) =>
    b.verts.any (fun v => verticesContains beamVerts v) ||
    beamVerts.any (fun v => verticesContains b.verts v)
  | none => false

/-- The id of the entity behind a reference. -/
def refEntId (s : GState) (r : Ref) : Option GId :=
  (getEnt s r).map (fun e => e.1)

/-- The squared distance from `(px, py)` to a candidate's body position.
The source computes `Math.sqrt` of this for force scaling; squaring is
order-preserving, so "nearest" comparisons are faithful on the squares. -/
def beamSqDist (s : GState) (px py : ℤ) (r : Ref) : Option ℤ :=
  (getEnt s r).map (fun e => (e.2.x - px) ^ 2 + (e.2.y - py) ^ 2)

/-- `handleBeamInteraction(socketId, targetX, targetY)`: ignore unknown or
beam-inactive players; collect (in candidate order) every candidate
overlapping the beam trapezoid anchored at the player's cached position;
apply the inverse-distance-scaled forces to each hit (engine-internal
accumulator, not part of the observable state) and highlight them (render
state, likewise); finally, if anything was hit, set the player's
`beamTarget` to `objectsInBeam[0].obj.id` — the first element of the
collection, not the nearest.  The target coordinates are received but never
used by this version. -/
def handleBeamInteraction (s : GState) (socketId : String)
    (_targetX _targetY : ℤ) : GState :=
  match s.players.find? (fun p => p.id = socketId) with
  | none => s
  | some player =>
    if !player.beamActive then s
    else
      let beamVerts := mkBeamVerts player.x player.y
      let objectsInBeam :=
        (beamCandidateRefs s player.id).filter (overlapsBeam s beamVerts)
      match objectsInBeam with
      | [] => s
      | r :: _ =>
        match refEntId s r with
        | some tid =>
          { s with players := s.players.map (fun p =>
              if p.id = player.id then { p with beamTarget := some tid } else p) }
        | none => s

theorem find?_map_id_keep (sid : String) (g : Player → Player)
    (hg : ∀ p, (g p).id = p.id) :
    ∀ l : List Player,
      (l.map g).find? (fun p => p.id = sid)
        = (l.find? (fun p => p.id = sid)).map g
  | [] => rfl
  | p :: l => by
    by_cases hid : p.id = sid
    · rw [List.map_cons,
        @List.find?_cons_of_pos Player (fun p => p.id = sid) (g p) _
          (by simp [hg p, hid]),
        @List.find?_cons_of_pos Player (fun p => p.id = sid) p l
          (by simpa using hid)]
      rfl
    · rw [List.map_cons,
        @List.find?_cons_of_neg Player (fun p => p.id = sid) (g p) _
          (by simp [hg p, hid]),
        @List.find?_cons_of_neg Player (fun p => p.id = sid) p l
          (by simpa using hid),
        find?_map_id_keep sid g hg l]

/-- C7 amended: when `handleBeamInteraction` runs for a beam-active player
whose beam trapezoid overlaps at least one candidate, the player's
`beamTarget` becomes the id of the **first** overlapping candidate in
enumeration order (marbles, emotes, non-static level objects, other
players) — not necessarily the nearest one; distance is computed only for
force scaling.  (The per-tick `updateBeamEffects` pass never writes
`beamTarget` at all.) -/
theorem handleBeamInteraction_first_overlap (s : GState) (sid : String)
    (tx ty : ℤ) (player : Player) (r : Ref) (rest : List Ref) (tid : GId)
    (hfind : s.players.find? (fun p => p.id = sid) = some player)
    (hactive : player.beamActive = true)
    (hfilter : (beamCandidateRefs s player.id).filter
        (overlapsBeam s (mkBeamVerts player.x player.y)) = r :: rest)
    (htid : refEntId s r = some tid) :
    (handleBeamInteraction s sid tx ty).players.find? (fun p => p.id = sid)
      = some { player with beamTarget := some tid } := by
  have hpid : player.id = sid := by
    have := List.find?_some hfind
    simpa using this
  unfold handleBeamInteraction
  rw [hfind]
  dsimp only
  rw [if_neg (by simp [hactive]), hfilter]
  dsimp only
  rw [htid]
  dsimp only
  rw [find?_map_id_keep sid
    (fun p => if p.id = player.id then { p with beamTarget := some tid } else p)
    (fun p => by by_cases h : p.id = player.id <;> simp [h]) s.players]
  rw [hfind, Option.map_some', if_pos rfl]

/-- A point-marker body for the beam scenario: its (single-point) vertex
list is what the overlap test consults. -/
def beamPtBody (cx cy : ℤ) (bid : ℕ) : Body :=
  { x := cx, y := cy, vx := 0, vy := 0, angle := 0
    minx := cx - 10, miny := cy - 10, maxx := cx + 10, maxy := cy + 10
    verts := [⟨cx, cy⟩], mask := 0xFFFFFFFF, bid := bid }

/-- Counterexample state for C7: a beam-active player at the origin, marble
m1 far down the beam at (0, 110), marble m2 close at (0, 30) — both inside
the beam trapezoid. -/
def gsB : GState :=
  { emptyGS with
    players := [{ samplePlayer "p1" 20 with beamActive := true }]
    marbles :=
      [{ id := .numId 1, body := beamPtBody 0 110 21, type := "marble" },
       { id := .numId 2, body := beamPtBody 0 30 22, type := "marble" }]
    world := [20, 21, 22]
    nextBid := 23 }

/-- Counterexample to C7 as stated: both marbles overlap the beam and m2 is
strictly nearer (squared distance 900 vs 12100), yet `beamTarget` becomes
m1's id — the first candidate in enumeration order, not the nearest hit. -/
theorem beam_target_not_nearest_cex :
    ((handleBeamInteraction gsB "p1" 0 0).players.find?
        (fun p => p.id = "p1")).map (fun p => p.beamTarget)
      = some (some (GId.numId 1)) ∧
    overlapsBeam gsB (mkBeamVerts 0 0) (Ref.rMarble 0) = true ∧
    overlapsBeam gsB (mkBeamVerts 0 0) (Ref.rMarble 1) = true ∧
    beamSqDist gsB 0 0 (Ref.rMarble 1) = some 900 ∧
    beamSqDist gsB 0 0 (Ref.rMarble 0) = some 12100 ∧
    refEntId gsB (Ref.rMarble 1) = some (GId.numId 2) ∧
    ¬(GId.numId 1 = GId.numId 2) ∧
    (900 : ℤ) < 12100 := by decide

/-- Witness for the amended C7 at a concrete state: the first overlapping
candidate (m1) becomes the beam target. -/
theorem handleBeamInteraction_first_overlap_witness :
    (handleBeamInteraction gsB "p1" 0 0).players.find? (fun p => p.id = "p1")
      = some { { samplePlayer "p1" 20 with beamActive := true } with
               beamTarget := some (GId.numId 1) } :=
  handleBeamInteraction_first_overlap gsB "p1" 0 0
    { samplePlayer "p1" 20 with beamActive := true }
    (Ref.rMarble 0) [Ref.rMarble 1] (GId.numId 1)
    (by decide) (by decide) (by decide) (by decide)

end BeamClaims

section EditorClaims

namespace Editor

/-- An object as the level editor stores it: id, position and rotation
(radians, default 0).  Editor coordinates are plain JS numbers, modelled
as reals since `Math.sqrt` is involved. -/
structure EObj where
  id : String
  x : ℝ
  y : ℝ
  rotation : ℝ := 0

/-- The connection record the editor pushes onto `level.connections`. -/
structure EConnection where
  id : String
  type : String
  bodyA : String
  bodyB : String
  pointA : ℝ × ℝ
  pointB : ℝ × ℝ
  length : ℝ
  stiffness : ℝ
  damping : ℝ

/-- `createConnection(objA, objB)` of the editor: build the record with
center attachment points `(0,0)`, `length` set to the center-to-center
Euclidean distance, base stiffness 1 / damping 0.1, then adjust
stiffness/damping per the connection-type switch (an unknown type falls
through the switch and keeps the base values). -/
noncomputable def createConnection (objA objB : EObj) (connectionType : String)
    (counter : ℕ) : EConnection :=
  let base : EConnection :=
    { id := "connection_" ++ toString counter
      type := connectionType
      bodyA := objA.id
      bodyB := objB.id
      pointA := (0, 0)
      pointB := (0, 0)
      length := Real.sqrt ((objB.x - objA.x) ^ 2 + (objB.y - objA.y) ^ 2)
      stiffness := 1
      damping := 1 / 10 }
  if connectionType = "revolute" then
    { base with stiffness := 1, damping := 1 / 10 }
  else if connectionType = "rope" then
    { base with stiffness := 0, damping := 1 / 20 }
  else if connectionType = "spring" then
    { base with stiffness := 1 / 10, damping := 1 / 20 }
  else if connectionType = "distance" then
    { base with stiffness := 1, damping := 1 / 10 }
  else base

/-- Modelled from the spec: the world-space position of an attachment
offset `p` on object `o` — the object's center plus the offset rotated by
the object's rotation. -/
noncomputable def worldAttachmentPoint (o : EObj) (p : ℝ × ℝ) : ℝ × ℝ :=
  (o.x + p.1 * Real.cos o.rotation - p.2 * Real.sin o.rotation,
   o.y + p.1 * Real.sin o.rotation + p.2 * Real.cos o.rotation)

/-- Modelled from the spec: plane Euclidean distance. -/
noncomputable def euclidDist (a b : ℝ × ℝ) : ℝ :=
  Real.sqrt ((b.1 - a.1) ^ 2 + (b.2 - a.2) ^ 2)

/-- Scenario object A at the origin. -/
def objA0 : EObj := { id := "A", x := 0, y := 0 }

/-- Scenario object B at (100, 0). -/
def objB100 : EObj := { id := "B", x := 100, y := 0 }

end Editor

/-- C10: for every pair of objects and every connection type, the editor's
`createConnection` sets `length` to the Euclidean distance between the
world-space rotated attachment points it stores — both attachment offsets
are written as `(0,0)`, whose world-rotated position is the object's center
for every rotation, so the stored center-to-center distance coincides with
the attachment-point distance; and in the concrete scenario, a `revolute`
connection between A at (0,0) and B at (100,0) has `length = 100` at
creation time. -/
theorem createConnection_length_world_attachment
    (objA objB : Editor.EObj) (t : String) (n : ℕ) :
    (Editor.createConnection objA objB t n).length
      = Editor.euclidDist
          (Editor.worldAttachmentPoint objA
            (Editor.createConnection objA objB t n).pointA)
          (Editor.worldAttachmentPoint objB
            (Editor.createConnection objA objB t n).pointB) ∧
    (Editor.createConnection Editor.objA0 Editor.objB100 "revolute" 0).length
      = 100 := by
  constructor
  · unfold Editor.createConnection Editor.euclidDist Editor.worldAttachmentPoint
    dsimp only
    repeat' split
    all_goals exact congrArg Real.sqrt (by ring)
  · unfold Editor.createConnection Editor.objA0 Editor.objB100
    rw [if_pos rfl]
    dsimp only
    have h : ((100 : ℝ) - 0) ^ 2 + ((0 : ℝ) - 0) ^ 2 = 100 ^ 2 := by ring
    rw [h, Real.sqrt_sq (by norm_num)]

end EditorClaims

end MarbleWS
